import Mathlib

set_option linter.unusedVariables false

/-!
Verification development for the BCCE developer-onboarding scripts
(`enterprise/onboard-developer.py`, the "single-path" script, and
`enterprise/unified-onboarding-enhanced.py`, the "unified" script).

The scripts are shallowly embedded: every AWS client call is modelled as a
step in a small state monad `PyM` that records the call in an operation log
and reads its outcome from an immutable `AwsWorld` (which fixes, per run,
which users and groups already exist and which service calls fail).  Python
exceptions are modelled by the error component of `PyM`; `try/except`
blocks become `PyM.tryCatch` with a handler that matches the exception
clauses in source order.  Pure computations (string manipulation, dict
construction) are translated directly.
-/

/-! ## Python string primitives used by the scripts -/

/-- Python `s.replace(a, b)` restricted to a single-character pattern, as
used by both scripts (`email.replace('@', '-').replace('.', '-')`). -/
def replaceChar (s : String) (a b : Char) : String :=
  ⟨s.data.map (fun c => if c = a then b else c)⟩

/-- The username both scripts derive from an email:
`email.replace('@', '-').replace('.', '-')`. -/
def deriveUsername (email : String) : String :=
  replaceChar (replaceChar email '@' '-') '.' '-'

/-- The IAM username of the single-path script:
`f"bcce-{email.replace('@', '-').replace('.', '-')}"`. -/
def iamUsername (email : String) : String :=
  "bcce-" ++ deriveUsername email

/-- Python `str.title()`: uppercase every alphabetic character that follows
a non-alphabetic one, lowercase every other alphabetic character. -/
def pyTitleAux : Bool → List Char → List Char
  | _, [] => []
  | prevAlpha, c :: cs =>
    (if c.isAlpha then (if prevAlpha then c.toLower else c.toUpper) else c)
      :: pyTitleAux c.isAlpha cs

/-- Python `str.title()` on a string. -/
def pyTitle (s : String) : String :=
  ⟨pyTitleAux false s.data⟩

/-- Python `s[:n]` (used as `self.account_id[:8]`). -/
def pyTake (s : String) (n : Nat) : String :=
  ⟨s.data.take n⟩

/-- Python `str.split(sep)` for a single-character separator. -/
def pySplitCharAux (sep : Char) : List Char → List Char → List String
  | [], acc => [⟨acc.reverse⟩]
  | c :: cs, acc =>
    if c = sep then ⟨acc.reverse⟩ :: pySplitCharAux sep cs []
    else pySplitCharAux sep cs (c :: acc)

/-- Python `s.split(sep)` for a single-character separator. -/
def pySplitChar (s : String) (sep : Char) : List String :=
  pySplitCharAux sep s.data []

/-- Rendering of an optional string in a Python f-string: `None` prints as
`"None"`.  (Both scripts interpolate dict values that can be `None`, e.g.
`resources.get('s3_bucket', '')`: the key is always present, holding `None`
after a bucket-creation failure, so the default is dead and the f-string
renders `None`.) -/
def pyShowOpt : Option String → String
  | some s => s
  | none => "None"

/-- Association-list lookup, modelling Python `dict.get(key)` /
`dict[key]` on the string-keyed dicts the scripts build. -/
def lookupStr {α : Type} (xs : List (String × α)) (k : String) : Option α :=
  (xs.find? (fun p => p.1 == k)).map (·.2)

/-! ## Exceptions and operation log -/

/-- Python exceptions that the embedded code can raise. -/
inductive PyExc where
  /-- `iam.exceptions.NoSuchEntityException` -/
  | noSuchEntity
  /-- `cognito.exceptions.UserNotFoundException` -/
  | userNotFound
  /-- the service reports the username already exists on a create call -/
  | usernameExists
  /-- `cognito.exceptions.ResourceNotFoundException` -/
  | resourceNotFound
  /-- `ValueError(msg)` -/
  | valueError (msg : String)
  /-- `KeyError(key)`: indexing a dict at an absent key -/
  | keyError (key : String)
  /-- `IndexError`: indexing a list out of range -/
  | indexError
  /-- a generic service failure raised by a boto3 call -/
  | apiError (msg : String)
deriving DecidableEq

/-- One subscriber of a budget notification. -/
structure Subscriber where
  subscriptionType : String
  address : String
deriving DecidableEq

/-- One notification rule passed to `budgets.create_budget`.  The Python
threshold literals `80.0` and `100.0` are integral, so the threshold is
modelled as a `Nat` percentage. -/
structure BudgetNotification where
  notificationType : String
  comparisonOperator : String
  threshold : Nat
  thresholdType : String
  subscribers : List Subscriber
deriving DecidableEq

/-- The AWS API calls the two scripts issue, as recorded in the operation
log of a run. -/
inductive Op where
  | iamGetUser (username : String)
  | iamCreateUser (username : String)
  | iamCreateAccessKey (username : String)
  | iamAttachUserPolicy (username : String) (policyArn : Option String)
  | iamAddUserToGroup (group username : String)
  | iamCreateGroup (group : String)
  | iamAttachGroupPolicy (group : String) (policyArn : Option String)
  | s3CreateBucket (bucket : String)
  | s3PutBucketVersioning (bucket : String)
  | s3PutBucketPolicy (bucket : String)
  | kmsCreateKey
  | budgetsCreateBudget (budgetName : String) (limit : Nat)
      (notifs : List BudgetNotification)
  | cognitoAdminGetUser (username : String)
  | cognitoAdminCreateUser (username : String)
  | cognitoAdminAddUserToGroup (group username : String)
  | s3PutObject (bucket key : String)
deriving DecidableEq

/-- Whether an operation provisions something (creates a user, a resource
or a budget, or writes data).  `iamGetUser` and `cognitoAdminGetUser` are
read-only existence checks, not provisioning. -/
def Op.isProvisioning : Op → Bool
  | .iamGetUser _ => false
  | .cognitoAdminGetUser _ => false
  | _ => true

/-- Whether an operation is the `budgets.create_budget` call. -/
def Op.isBudgetCreate : Op → Bool
  | .budgetsCreateBudget _ _ _ => true
  | _ => false

/-- Whether an operation is the `kms.create_key` call. -/
def Op.isKmsCreate : Op → Bool
  | .kmsCreateKey => true
  | _ => false

/-! ## The embedding monad

A Python computation is a function from the operation log so far to an
outcome (normal return or exception) together with the extended log.  The
log survives an exception, as the already-issued AWS calls do in Python. -/

def PyM (α : Type) : Type := List Op → Except PyExc α × List Op

/-- Return without touching the log. -/
protected def PyM.pure {α : Type} (a : α) : PyM α := fun ops => (.ok a, ops)

/-- Sequencing: an exception short-circuits but keeps the log. -/
protected def PyM.bind {α β : Type} (x : PyM α) (f : α → PyM β) : PyM β :=
  fun ops =>
    match x ops with
    | (.ok a, l) => f a l
    | (.error e, l) => (.error e, l)

instance : Monad PyM where
  pure := PyM.pure
  bind := PyM.bind

/-- `raise e`. -/
protected def PyM.throw {α : Type} (e : PyExc) : PyM α :=
  fun ops => (.error e, ops)

/-- A `try/except` block: the handler receives the exception and the log
as extended by the failed body. -/
protected def PyM.tryCatch {α : Type} (x : PyM α) (h : PyExc → PyM α) : PyM α :=
  fun ops =>
    match x ops with
    | (.ok a, l) => (.ok a, l)
    | (.error e, l) => h e l

/-- Embed a pure `Except` computation (a Python expression that can raise
but issues no AWS call). -/
protected def PyM.ofExcept {α : Type} (x : Except PyExc α) : PyM α :=
  fun ops => (x, ops)

/-- Run a computation on the empty log. -/
def pyRun {α : Type} (x : PyM α) : Except PyExc α × List Op := x []

/-- Whether an `Except` outcome is a normal return. -/
def isOkE {α : Type} : Except PyExc α → Bool
  | .ok _ => true
  | .error _ => false

/-- The exception of an `Except` outcome, if any. -/
def errOf {α : Type} : Except PyExc α → Option PyExc
  | .ok _ => none
  | .error e => some e

/-- The value of an `Except` outcome, if any. -/
def okOf {α : Type} : Except PyExc α → Option α
  | .ok a => some a
  | .error _ => none

/-- Python list indexing `xs[i]`, raising `IndexError` when out of range. -/
def pyIndex (xs : List String) (i : Nat) : Except PyExc String :=
  match xs.get? i with
  | some v => .ok v
  | none => .error .indexError

/-- Python `d[key]` on a dict whose key may be absent. -/
def pyDictGetNat (value? : Option Nat) (key : String) : Except PyExc Nat :=
  match value? with
  | some v => .ok v
  | none => .error (.keyError key)

/-! ## Configuration data model -/

/-- The per-department entry of the `departments` mapping of the
organization config (keys are optional, as in a YAML dict). -/
structure DeptConfig where
  accessTiers : Option (List String)
  budgetLimit : Option Nat
deriving DecidableEq

/-- The organization config as used by the single-path script: only the
`departments` keys and the top-level `domain` are read. -/
structure OrgConfig where
  departments : List (String × DeptConfig)
  domain : Option String
deriving DecidableEq

/-- The unified config: `departments`, `authentication.user_pool_id`,
`governance.analytics_bucket`, `governance.kms_key_id` and the
`organization` section. -/
structure UnifiedConfig where
  departments : List (String × DeptConfig)
  userPoolId : Option String
  analyticsBucket : Option String
  kmsKeyId : Option String
  orgName : Option String
  orgRegion : Option String
  orgEnvironment : Option String
deriving DecidableEq

/-- The state `UnifiedBCCEOnboarder.__init__` establishes: the config plus
the user-pool id it insists on. -/
structure UnifiedOnboarder where
  config : UnifiedConfig
  userPoolId : String
deriving DecidableEq

/-- `UnifiedBCCEOnboarder.__init__`: raises `ValueError` when the config
has no Cognito user-pool id. -/
def mkUnifiedOnboarder (cfg : UnifiedConfig) : Except PyExc UnifiedOnboarder :=
  match cfg.userPoolId with
  | some p => .ok { config := cfg, userPoolId := p }
  | none => .error (.valueError "Cognito User Pool ID not found in configuration")

/-! ## The world of a run

All service outcomes of one run, fixed up front: which IAM and Cognito
users and groups already exist, which calls fail, and the values the
successful responses carry.  `now` is the `datetime.utcnow().isoformat()`
reading and `today` the `strftime('%Y/%m/%d')` reading of the run. -/

structure AwsWorld where
  existingUsers : List String
  existingGroups : List String
  cognitoUsers : List String
  cognitoGroups : List String
  accountId : String
  s3CreateFails : Bool
  budgetCreateFails : Bool
  s3PutObjectFails : Bool
  userArn : String
  accessKeyId : String
  secretAccessKey : String
  kmsKeyId : String
  kmsKeyArn : String
  now : String
  today : String
deriving DecidableEq

/-! ## Service-call primitives -/

/-- `iam.get_user(UserName=username)`: raises `NoSuchEntityException` when
the user does not exist. -/
def iamGetUserApi (w : AwsWorld) (username : String) : PyM Unit :=
  fun ops =>
    (if w.existingUsers.contains username then .ok () else .error .noSuchEntity,
     ops ++ [.iamGetUser username])

/-- `iam.create_user(...)`: fails when the username already exists. -/
def iamCreateUserApi (w : AwsWorld) (username : String) : PyM Unit :=
  fun ops =>
    (if w.existingUsers.contains username then .error .usernameExists else .ok (),
     ops ++ [.iamCreateUser username])

/-- `iam.create_access_key(UserName=username)`. -/
def iamCreateAccessKeyApi (w : AwsWorld) (username : String) : PyM (String × String) :=
  fun ops => (.ok (w.accessKeyId, w.secretAccessKey), ops ++ [.iamCreateAccessKey username])

/-- `iam.attach_user_policy(...)`.  The script never inspects the ARN
before passing it, so a `None` ARN is forwarded as-is. -/
def iamAttachUserPolicyApi (w : AwsWorld) (username : String)
    (policyArn : Option String) : PyM Unit :=
  fun ops => (.ok (), ops ++ [.iamAttachUserPolicy username policyArn])

/-- `iam.add_user_to_group(...)`: raises `NoSuchEntityException` when the
group does not exist yet. -/
def iamAddUserToGroupApi (w : AwsWorld) (group username : String) : PyM Unit :=
  fun ops =>
    (if w.existingGroups.contains group then .ok () else .error .noSuchEntity,
     ops ++ [.iamAddUserToGroup group username])

/-- The second `iam.add_user_to_group` call, issued right after
`_create_developer_group` has created the group: it succeeds, the group
now existing. -/
def iamAddUserToGroupAfterCreateApi (w : AwsWorld) (group username : String) : PyM Unit :=
  fun ops => (.ok (), ops ++ [.iamAddUserToGroup group username])

/-- `iam.create_group(GroupName=group)`. -/
def iamCreateGroupApi (w : AwsWorld) (group : String) : PyM Unit :=
  fun ops => (.ok (), ops ++ [.iamCreateGroup group])

/-- `iam.attach_group_policy(...)`. -/
def iamAttachGroupPolicyApi (w : AwsWorld) (group : String)
    (policyArn : Option String) : PyM Unit :=
  fun ops => (.ok (), ops ++ [.iamAttachGroupPolicy group policyArn])

/-- `s3.create_bucket(...)`: fails when the world says so. -/
def s3CreateBucketApi (w : AwsWorld) (bucket : String) : PyM Unit :=
  fun ops =>
    (if w.s3CreateFails then .error (.apiError "create_bucket") else .ok (),
     ops ++ [.s3CreateBucket bucket])

/-- `s3.put_bucket_versioning(...)`. -/
def s3PutBucketVersioningApi (w : AwsWorld) (bucket : String) : PyM Unit :=
  fun ops => (.ok (), ops ++ [.s3PutBucketVersioning bucket])

/-- `s3.put_bucket_policy(...)` (the policy document itself is a pure JSON
value scoped to the new user; it is not needed by any claim). -/
def s3PutBucketPolicyApi (w : AwsWorld) (bucket : String) : PyM Unit :=
  fun ops => (.ok (), ops ++ [.s3PutBucketPolicy bucket])

/-- `kms.create_key(...)`: returns the key id and ARN. -/
def kmsCreateKeyApi (w : AwsWorld) : PyM (String × String) :=
  fun ops => (.ok (w.kmsKeyId, w.kmsKeyArn), ops ++ [.kmsCreateKey])

/-- `budgets.create_budget(...)`: fails when the world says so. -/
def budgetsCreateBudgetApi (w : AwsWorld) (budgetName : String) (limit : Nat)
    (notifs : List BudgetNotification) : PyM Unit :=
  fun ops =>
    (if w.budgetCreateFails then .error (.apiError "create_budget") else .ok (),
     ops ++ [.budgetsCreateBudget budgetName limit notifs])

/-- `cognito.admin_get_user(...)`: raises `UserNotFoundException` when the
username is not in the pool. -/
def cognitoAdminGetUserApi (w : AwsWorld) (username : String) : PyM Unit :=
  fun ops =>
    (if w.cognitoUsers.contains username then .ok () else .error .userNotFound,
     ops ++ [.cognitoAdminGetUser username])

/-- `cognito.admin_create_user(...)`: fails when the username is already
in the pool. -/
def cognitoAdminCreateUserApi (w : AwsWorld) (username : String) : PyM Unit :=
  fun ops =>
    (if w.cognitoUsers.contains username then .error .usernameExists else .ok (),
     ops ++ [.cognitoAdminCreateUser username])

/-- `cognito.admin_add_user_to_group(...)`: raises
`ResourceNotFoundException` when the group does not exist. -/
def cognitoAdminAddUserToGroupApi (w : AwsWorld) (group username : String) : PyM Unit :=
  fun ops =>
    (if w.cognitoGroups.contains group then .ok () else .error .resourceNotFound,
     ops ++ [.cognitoAdminAddUserToGroup group username])

/-- `s3.put_object(...)`: fails when the world says so. -/
def s3PutObjectApi (w : AwsWorld) (bucket key : String) : PyM Unit :=
  fun ops =>
    (if w.s3PutObjectFails then .error (.apiError "put_object") else .ok (),
     ops ++ [.s3PutObject bucket key])

/-! ## Single-path script: `onboard-developer.py` -/

/-- `_validate_onboarding_request`: department must be a key of the
config's `departments` dict; the access tier must be in the fixed list
`['sandbox', 'integration', 'production']`; the derived IAM username must
not already exist (`NoSuchEntityException` means it is free). -/
def validateOnboardingRequest (w : AwsWorld) (config : OrgConfig)
    (email department accessTier : String) : PyM Unit := do
  if !((config.departments.map (·.1)).contains department) then
    PyM.throw (.valueError ("Invalid department: " ++ department))
  if !(["sandbox", "integration", "production"].contains accessTier) then
    PyM.throw (.valueError ("Invalid access tier: " ++ accessTier))
  PyM.tryCatch
    (do
      iamGetUserApi w (iamUsername email)
      PyM.throw (.valueError ("User already exists for " ++ email)))
    (fun e =>
      match e with
      | .noSuchEntity => pure ()
      | e => PyM.throw e)

/-- The fixed tier-to-policy-ARN table of `_get_policy_arn_for_tier`. -/
def policyMapping (accountId : String) : List (String × String) :=
  [("sandbox", "arn:aws:iam::" ++ accountId ++ ":policy/BCCE-Sandbox-Developer-Policy"),
   ("integration", "arn:aws:iam::" ++ accountId ++ ":policy/BCCE-Integration-Developer-Policy"),
   ("production", "arn:aws:iam::" ++ accountId ++ ":policy/BCCE-Production-Developer-Policy")]

/-- `_get_policy_arn_for_tier`: a `dict.get` on the fixed table, returning
`None` (not raising) when the tier has no mapping. -/
def getPolicyArnForTier (accountId accessTier : String) : Option String :=
  lookupStr (policyMapping accountId) accessTier

/-- The result dict of `_create_iam_user`. -/
structure UserInfo where
  username : String
  userArn : String
  accessKeyId : String
  secretAccessKey : String
  policyArn : Option String
  groupName : String
deriving DecidableEq

/-- `_create_developer_group`: create the group and attach the tier
policy. -/
def createDeveloperGroup (w : AwsWorld) (groupName department accessTier : String) :
    PyM Unit := do
  iamCreateGroupApi w groupName
  iamAttachGroupPolicyApi w groupName (getPolicyArnForTier w.accountId accessTier)

/-- `_create_iam_user`: create the user, create access keys, attach the
tier policy, then add the user to the `BCCE-{Dept}-{Tier}` group, creating
the group on a `NoSuchEntityException`. -/
def createIamUser (w : AwsWorld) (email department accessTier : String) :
    PyM UserInfo := do
  let username := iamUsername email
  iamCreateUserApi w username
  let keys ← iamCreateAccessKeyApi w username
  let policyArn := getPolicyArnForTier w.accountId accessTier
  iamAttachUserPolicyApi w username policyArn
  let groupName := "BCCE-" ++ pyTitle department ++ "-" ++ pyTitle accessTier
  PyM.tryCatch (iamAddUserToGroupApi w groupName username)
    (fun e =>
      match e with
      | .noSuchEntity => do
          createDeveloperGroup w groupName department accessTier
          iamAddUserToGroupAfterCreateApi w groupName username
      | e => PyM.throw e)
  pure { username := username, userArn := w.userArn,
         accessKeyId := keys.1, secretAccessKey := keys.2,
         policyArn := policyArn, groupName := groupName }

/-- The result dict of `_provision_developer_resources`: the bucket
reference is `None` after a caught bucket-creation failure. -/
structure Resources where
  s3Bucket : Option String
  kmsKeyId : String
  kmsKeyArn : String
  logGroupName : String
deriving DecidableEq

/-- `_provision_developer_resources`: try to create and configure the
bucket, degrading to `bucket_name = None` on any exception; then create
the KMS key (not guarded); the CloudWatch log-group block is a stub that
creates nothing. -/
def provisionDeveloperResources (w : AwsWorld) (email department accessTier : String) :
    PyM Resources := do
  let bucketName := "bcce-" ++ deriveUsername email ++ "-" ++ pyTake w.accountId 8
  let s3Bucket ← PyM.tryCatch
    (do
      s3CreateBucketApi w bucketName
      s3PutBucketVersioningApi w bucketName
      s3PutBucketPolicyApi w bucketName
      pure (some bucketName))
    (fun _ => pure none)
  let key ← kmsCreateKeyApi w
  pure { s3Bucket := s3Bucket, kmsKeyId := key.1, kmsKeyArn := key.2,
         logGroupName := "/bcce/developer/" ++ deriveUsername email }

/-- The tier-to-limit table of `_setup_budget_controls`. -/
def budgetLimits : List (String × Nat) :=
  [("sandbox", 100), ("integration", 500), ("production", 2000)]

/-- `budget_limits.get(access_tier, 100)`. -/
def budgetLimitFor (accessTier : String) : Nat :=
  (lookupStr budgetLimits accessTier).getD 100

/-- The two notification rules `_setup_budget_controls` builds: 80% to the
user, 100% to the user and `{department}-manager@{config domain, default
company.com}`. -/
def devBudgetNotifications (config : OrgConfig) (email department : String) :
    List BudgetNotification :=
  [{ notificationType := "ACTUAL", comparisonOperator := "GREATER_THAN",
     threshold := 80, thresholdType := "PERCENTAGE",
     subscribers := [{ subscriptionType := "EMAIL", address := email }] },
   { notificationType := "ACTUAL", comparisonOperator := "GREATER_THAN",
     threshold := 100, thresholdType := "PERCENTAGE",
     subscribers := [{ subscriptionType := "EMAIL", address := email },
                     { subscriptionType := "EMAIL",
                       address := department ++ "-manager@" ++ config.domain.getD "company.com" }] }]

/-- The result dict of `_setup_budget_controls`.  On success the dict has
the keys `budget_name`, `budget_limit`, `currency`,
`notifications_enabled`; on a caught failure it has only `budget_name`
(holding `None`) and `error`.  Absent keys are modelled as `none`. -/
structure DevBudgetInfo where
  budgetName : Option String
  budgetLimit : Option Nat
  currency : Option String
  notificationsEnabled : Option Bool
  error : Option String
deriving DecidableEq

/-- `_setup_budget_controls`: build the budget and notifications, call
`create_budget`, and degrade to `{'budget_name': None, 'error': ...}` on
any exception. -/
def setupBudgetControls (w : AwsWorld) (config : OrgConfig)
    (email department accessTier : String) : PyM DevBudgetInfo := do
  let budgetLimit := budgetLimitFor accessTier
  let budgetName := "BCCE-" ++ deriveUsername email
  let notifications := devBudgetNotifications config email department
  PyM.tryCatch
    (do
      budgetsCreateBudgetApi w budgetName budgetLimit notifications
      pure { budgetName := some budgetName, budgetLimit := some budgetLimit,
             currency := some "USD", notificationsEnabled := some true,
             error := none })
    (fun _ =>
      pure { budgetName := none, budgetLimit := none, currency := none,
             notificationsEnabled := none, error := some "create_budget failed" })

/-- The result dict of `_setup_monitoring`. -/
structure DevMonitoring where
  metricNamespace : String
  dashboardName : String
  alertingEnabled : Bool
deriving DecidableEq

/-- `_setup_monitoring`: a pure configuration object (no alarm is
created). -/
def setupMonitoring (email department : String) : DevMonitoring :=
  { metricNamespace := "BCCE/Developer/" ++ department,
    dashboardName := "BCCE-" ++ deriveUsername email,
    alertingEnabled := true }

/-- `email.split('@')[1].split('.')[0]` of `_generate_config_files`:
raises `IndexError` when the email has no `'@'`. -/
def emailDomainDept (email : String) : Except PyExc String :=
  match pyIndex (pySplitChar email '@') 1 with
  | .error e => .error e
  | .ok domainPart => pyIndex (pySplitChar domainPart '.') 0

/-- The `aws` section of the generated BCCE CLI config. -/
structure BcceAwsSection where
  region : String
  accessKeyId : String
  secretAccessKey : String
deriving DecidableEq

/-- The `monitoring` subsection of the generated config. -/
structure BcceMonitoringSection where
  enabled : Bool
  logLevel : String
deriving DecidableEq

/-- The `bcce` section of the generated config. -/
structure BcceSection where
  accessTier : String
  department : String
  developerEmail : String
  s3Bucket : Option String
  kmsKeyId : String
  monitoring : BcceMonitoringSection
deriving DecidableEq

/-- The generated BCCE CLI configuration object. -/
structure BcceConfig where
  profile : String
  aws : BcceAwsSection
  bcce : BcceSection
deriving DecidableEq

/-- The environment-variable block of `_generate_config_files`, rendered
verbatim; `now` is the `datetime.utcnow().isoformat()` value interpolated
into the header. -/
def devEnvVars (now accessKeyId secretAccessKey accessTier email : String)
    (s3Bucket : Option String) (kmsKeyId : String) : String :=
  "# BCCE Developer Environment Configuration\n# Generated on " ++ now ++
  "\n\nexport AWS_ACCESS_KEY_ID=\"" ++ accessKeyId ++
  "\"\nexport AWS_SECRET_ACCESS_KEY=\"" ++ secretAccessKey ++
  "\"\nexport AWS_REGION=\"us-east-1\"\nexport BCCE_ACCESS_TIER=\"" ++ accessTier ++
  "\"\nexport BCCE_DEVELOPER_EMAIL=\"" ++ email ++
  "\"\nexport BCCE_S3_BUCKET=\"" ++ pyShowOpt s3Bucket ++
  "\"\nexport BCCE_KMS_KEY_ID=\"" ++ kmsKeyId ++
  "\"\n\n# Usage tracking (optional)\nexport BCCE_ENABLE_ANALYTICS=\"true\"\nexport BCCE_BUDGET_ALERTS=\"true\"\n"

/-- The getting-started guide of `_generate_config_files`, rendered
verbatim.  (`resources.get('s3_bucket', 'Not created')` returns the stored
`None` after a bucket failure — the key is present — so the f-string
renders `None`, not the dead default.) -/
def devGettingStarted (accessTier : String) (s3Bucket : Option String)
    (kmsKeyId : String) : String :=
  "# Welcome to BCCE Enterprise!\n\n## Quick Start Guide\n\n1. **Install BCCE CLI:**\n   ```bash\n   npm install -g @company/bcce-cli\n   ```\n\n2. **Configure your environment:**\n   ```bash\n   # Source the environment variables\n   source bcce-env-vars.sh\n   \n   # Verify setup\n   bcce doctor\n   ```\n\n3. **Create your first workflow:**\n   ```bash\n   bcce workflow create my-first-workflow\n   ```\n\n## Your Access Level: " ++
  pyTitle accessTier ++
  "\n\n### What you can do:\n- Access to Claude 3 models (Haiku for sandbox, Sonnet for integration+)\n- Create and execute AI workflows\n- Monitor usage and costs\n- Access development environment\n\n### Resources:\n- S3 Bucket: " ++
  pyShowOpt s3Bucket ++
  "\n- KMS Key: " ++ kmsKeyId ++
  "\n- Budget Limit: Based on your access tier\n\n## Support:\n- Documentation: https://company-bcce-docs.com\n- Slack: #bcce-support\n- Email: bcce-support@company.com\n\nHappy building! 🚀\n"

/-- The result dict of `_generate_config_files`. -/
structure ConfigFiles where
  bcceConfig : BcceConfig
  envVars : String
  gettingStarted : String
deriving DecidableEq

/-- `_generate_config_files`: a computation of the provisioning outputs
and the clock reading `now`; the `department` field of the config object
is extracted from the email's domain and raises `IndexError` when the
email has no `'@'`. -/
def generateConfigFiles (now email : String) (userInfo : UserInfo)
    (resources : Resources) (accessTier : String) : Except PyExc ConfigFiles :=
  match emailDomainDept email with
  | .error e => .error e
  | .ok dept =>
  Except.ok
    { bcceConfig :=
        { profile := "default",
          aws := { region := "us-east-1", accessKeyId := userInfo.accessKeyId,
                   secretAccessKey := userInfo.secretAccessKey },
          bcce := { accessTier := accessTier, department := dept,
                    developerEmail := email, s3Bucket := resources.s3Bucket,
                    kmsKeyId := resources.kmsKeyId,
                    monitoring := { enabled := true, logLevel := "INFO" } } },
      envVars := devEnvVars now userInfo.accessKeyId userInfo.secretAccessKey
        accessTier email resources.s3Bucket resources.kmsKeyId,
      gettingStarted := devGettingStarted accessTier resources.s3Bucket
        resources.kmsKeyId }

/-- The onboarding-result dict of `onboard_developer`. -/
structure OnboardResult where
  status : String
  developerEmail : String
  department : String
  accessTier : String
  userInfo : UserInfo
  resources : Resources
  budgetInfo : DevBudgetInfo
  monitoring : DevMonitoring
  configFiles : ConfigFiles
  onboardedAt : String
deriving DecidableEq

/-- `onboard_developer`: the eight-step pipeline.  Steps 7 and 8
(`_send_welcome_email`, `_log_onboarding_event`) only log and are
side-effect-free in the embedding. -/
def onboardDeveloper (w : AwsWorld) (config : OrgConfig)
    (email department accessTier managerEmail useCase : String) :
    PyM OnboardResult := do
  validateOnboardingRequest w config email department accessTier
  let userInfo ← createIamUser w email department accessTier
  let resources ← provisionDeveloperResources w email department accessTier
  let budgetInfo ← setupBudgetControls w config email department accessTier
  let monitoring := setupMonitoring email department
  let configFiles ← PyM.ofExcept
    (generateConfigFiles w.now email userInfo resources accessTier)
  pure { status := "success", developerEmail := email, department := department,
         accessTier := accessTier, userInfo := userInfo, resources := resources,
         budgetInfo := budgetInfo, monitoring := monitoring,
         configFiles := configFiles, onboardedAt := w.now }

/-- The `--dry-run` branch of the single-path `main`: run only the
validation, exit `0` on success and `1` on failure. -/
def mainDryRun (w : AwsWorld) (config : OrgConfig)
    (email department accessTier : String) : Nat × List Op :=
  match pyRun (validateOnboardingRequest w config email department accessTier) with
  | (.ok _, ops) => (0, ops)
  | (.error _, ops) => (1, ops)

/-! ## Unified script: `unified-onboarding-enhanced.py` -/

/-- `_validate_unified_request`: the department must exist in the config;
the tier must be in the department's `access_tiers` list (defaulting to
`['sandbox']`); then the duplicate-user check.  The `ValueError` raised
when `admin_get_user` finds the user is itself raised inside the `try`
block, so it is caught by the trailing `except Exception` clause, which
only logs a warning: the check never fails the validation. -/
def validateUnifiedRequest (w : AwsWorld) (o : UnifiedOnboarder)
    (email department accessTier : String) : PyM Unit := do
  match lookupStr o.config.departments department with
  | none => PyM.throw (.valueError ("Invalid department: " ++ department))
  | some deptCfg =>
    let validTiers := deptCfg.accessTiers.getD ["sandbox"]
    if !(validTiers.contains accessTier) then
      PyM.throw (.valueError ("Invalid access tier " ++ accessTier ++
        " for department " ++ department))
    PyM.tryCatch
      (do
        cognitoAdminGetUserApi w (deriveUsername email)
        PyM.throw (.valueError ("User already exists in Cognito for " ++ email)))
      (fun e =>
        match e with
        | .userNotFound => pure ()
        | _ => pure ())

/-- The result dict of `_create_cognito_user_enhanced`. -/
structure CognitoUserInfo where
  username : String
  userPoolId : String
  userSub : String
  email : String
  department : String
  accessTier : String
  budgetLimit : Nat
  managerEmail : String
  authMethod : String
deriving DecidableEq

/-- `_create_cognito_user_enhanced`: create the Cognito user with the BCCE
attributes; the `except Exception` clause logs and re-raises. -/
def createCognitoUserEnhanced (w : AwsWorld) (o : UnifiedOnboarder)
    (email department accessTier managerEmail : String) : PyM CognitoUserInfo := do
  let username := deriveUsername email
  let deptCfg := (lookupStr o.config.departments department).getD
    { accessTiers := none, budgetLimit := none }
  let budgetLimit := deptCfg.budgetLimit.getD 100
  PyM.tryCatch
    (do
      cognitoAdminCreateUserApi w username
      pure { username := username, userPoolId := o.userPoolId,
             userSub := username, email := email, department := department,
             accessTier := accessTier, budgetLimit := budgetLimit,
             managerEmail := managerEmail, authMethod := "cognito_enhanced" })
    (fun e => PyM.throw e)

/-- The result dict of `_assign_department_group`. -/
structure GroupInfo where
  groupName : String
  groupAssigned : Bool
  department : String
deriving DecidableEq

/-- `_assign_department_group`: add the user to the department-named
Cognito group; both `except` clauses log and re-raise. -/
def assignDepartmentGroup (w : AwsWorld) (o : UnifiedOnboarder)
    (email department : String) : PyM GroupInfo := do
  let username := deriveUsername email
  let groupName := department
  PyM.tryCatch
    (do
      cognitoAdminAddUserToGroupApi w groupName username
      pure { groupName := groupName, groupAssigned := true,
             department := department })
    (fun e => PyM.throw e)

/-- The tier-to-limit table of `_setup_individual_budget` (production is
1000 here, against 2000 in the single-path script). -/
def tierLimits : List (String × Nat) :=
  [("sandbox", 100), ("integration", 500), ("production", 1000)]

/-- `tier_limits.get(access_tier, 100)`. -/
def tierLimitFor (accessTier : String) : Nat :=
  (lookupStr tierLimits accessTier).getD 100

/-- The two notification rules `_setup_individual_budget` builds: both the
80% and the 100% rule subscribe the user's email only. -/
def unifiedBudgetNotifications (email : String) : List BudgetNotification :=
  [{ notificationType := "ACTUAL", comparisonOperator := "GREATER_THAN",
     threshold := 80, thresholdType := "PERCENTAGE",
     subscribers := [{ subscriptionType := "EMAIL", address := email }] },
   { notificationType := "ACTUAL", comparisonOperator := "GREATER_THAN",
     threshold := 100, thresholdType := "PERCENTAGE",
     subscribers := [{ subscriptionType := "EMAIL", address := email }] }]

/-- The result dict of `_setup_individual_budget`.  On success the dict
has `budget_name`, `budget_limit`, `currency`, `created`; on a caught
failure it has `budget_name` (holding `None`), `error` and `created`, and
the `budget_limit` key is absent (modelled as `none`). -/
structure UnifiedBudgetInfo where
  budgetName : Option String
  budgetLimit : Option Nat
  currency : Option String
  created : Bool
  error : Option String
deriving DecidableEq

/-- `_setup_individual_budget`: build the budget and notifications, call
`create_budget`, and degrade to `{'budget_name': None, 'error': ...,
'created': False}` on any exception. -/
def setupIndividualBudget (w : AwsWorld) (email department accessTier : String) :
    PyM UnifiedBudgetInfo := do
  let individualLimit := tierLimitFor accessTier
  let budgetName := "BCCE-Individual-" ++ deriveUsername email
  PyM.tryCatch
    (do
      budgetsCreateBudgetApi w budgetName individualLimit
        (unifiedBudgetNotifications email)
      pure { budgetName := some budgetName, budgetLimit := some individualLimit,
             currency := some "USD", created := true, error := none })
    (fun _ =>
      pure { budgetName := none, budgetLimit := none, currency := none,
             created := false, error := some "create_budget failed" })

/-- The analytics configuration object of `_setup_analytics_tracking`. -/
structure AnalyticsConfig where
  userEmail : String
  department : String
  accessTier : String
  trackingEnabled : Bool
  metricsNamespace : String
  analyticsBucket : Option String
  retentionDays : Nat
deriving DecidableEq

/-- `_setup_analytics_tracking`: build the configuration object, store it
in the analytics bucket when one is configured (failures only warn), and
return the object. -/
def setupAnalyticsTracking (w : AwsWorld) (o : UnifiedOnboarder)
    (email department accessTier : String) : PyM AnalyticsConfig := do
  let cfg : AnalyticsConfig :=
    { userEmail := email, department := department, accessTier := accessTier,
      trackingEnabled := true,
      metricsNamespace := "BCCE/" ++ o.config.orgName.getD "Organization",
      analyticsBucket := o.config.analyticsBucket,
      retentionDays := if accessTier = "production" then 365 else 90 }
  let configKey := "configs/users/" ++ deriveUsername email ++ "/analytics-config.json"
  PyM.tryCatch
    (match o.config.analyticsBucket with
     | some b => s3PutObjectApi w b configKey
     | none => pure ())
    (fun _ => pure ())
  pure cfg

/-- The custom-metrics configuration object of `_setup_custom_metrics`
(the source key `namespace` is a Lean keyword, hence `namespaceName`). -/
structure MetricsConfig where
  namespaceName : String
  departmentDim : String
  userDim : String
  environmentDim : String
  metrics : List String
deriving DecidableEq

/-- `_setup_custom_metrics`: a pure configuration object. -/
def setupCustomMetrics (o : UnifiedOnboarder) (email department : String) :
    MetricsConfig :=
  { namespaceName := "BCCE/" ++ o.config.orgName.getD "Organization",
    departmentDim := department, userDim := email,
    environmentDim := o.config.orgEnvironment.getD "production",
    metrics := ["TokensUsed", "RequestCount", "ErrorCount", "ResponseTime",
                "CostEstimate"] }

/-- The result dict of `_setup_governance_resources` (the source key
`s3_user_prefix` is the per-user S3 key path, here `s3UserPath`). -/
structure GovResources where
  s3UserPath : String
  analyticsBucket : Option String
  individualBudget : UnifiedBudgetInfo
  analyticsConfig : AnalyticsConfig
  metricsConfig : MetricsConfig
  kmsKeyId : Option String
deriving DecidableEq

/-- `_setup_governance_resources`: individual budget, analytics tracking
and custom metrics. -/
def setupGovernanceResources (w : AwsWorld) (o : UnifiedOnboarder)
    (email department accessTier : String) : PyM GovResources := do
  let userPath := "users/" ++ deriveUsername email
  let individualBudget ← setupIndividualBudget w email department accessTier
  let analyticsConfig ← setupAnalyticsTracking w o email department accessTier
  let metricsConfig := setupCustomMetrics o email department
  pure { s3UserPath := userPath, analyticsBucket := o.config.analyticsBucket,
         individualBudget := individualBudget, analyticsConfig := analyticsConfig,
         metricsConfig := metricsConfig, kmsKeyId := o.config.kmsKeyId }

/-- The result dict of `_setup_enhanced_monitoring`. -/
structure UnifiedMonitoring where
  userEmail : String
  department : String
  accessTier : String
  dashboardName : String
  alertsEnabled : Bool
  costAlerts : Bool
  performanceMonitoring : Bool
deriving DecidableEq

/-- `_setup_enhanced_monitoring`: a pure configuration object. -/
def setupEnhancedMonitoring (email department accessTier : String) :
    UnifiedMonitoring :=
  { userEmail := email, department := department, accessTier := accessTier,
    dashboardName := "BCCE-" ++ deriveUsername email,
    alertsEnabled := true,
    costAlerts := ["integration", "production"].contains accessTier,
    performanceMonitoring := true }

/-- The fixed tier-to-model table of `_get_model_list_for_tier`. -/
def modelAccess : List (String × List String) :=
  [("sandbox", ["claude-3-haiku"]),
   ("integration", ["claude-3-haiku", "claude-3-5-sonnet"]),
   ("production", ["claude-3-haiku", "claude-3-5-sonnet", "claude-3-opus"])]

/-- `_get_model_list_for_tier`: format the models of the tier (default
`['claude-3-haiku']`) as `- model` lines. -/
def getModelListForTier (accessTier : String) : String :=
  String.intercalate "\n"
    (((lookupStr modelAccess accessTier).getD ["claude-3-haiku"]).map
      (fun m => "- " ++ m))

/-- The `authentication` section of the unified configuration object. -/
structure UnifiedAuthSection where
  method : String
  provider : String
  userPoolId : String
  username : String
  sessionBased : Bool
  region : String
deriving DecidableEq

/-- The `governance` section of the unified configuration object. -/
structure UnifiedGovSection where
  enabled : Bool
  provider : String
  accessTier : String
  department : String
  budgetLimit : Nat
  analyticsBucket : Option String
  kmsKeyId : Option String
  individualBudget : Option String
deriving DecidableEq

/-- The `integration` section of the unified configuration object. -/
structure UnifiedIntegrationSection where
  architecture : String
  solutionsLibrary : String
  bcce : String
  version : String
deriving DecidableEq

/-- The unified configuration object of `_generate_unified_config`. -/
structure UnifiedConfigObj where
  profile : String
  authentication : UnifiedAuthSection
  governance : UnifiedGovSection
  integration : UnifiedIntegrationSection
deriving DecidableEq

/-- The environment-variable block of `_generate_unified_config`, rendered
verbatim; `now` is the `datetime.utcnow().isoformat()` reading. -/
def unifiedEnvVars (now userPoolId username region accessTier department : String)
    (analyticsBucket kmsKeyId : Option String) (budgetLimit : Nat)
    (individualBudgetName : Option String) : String :=
  "# BCCE + AWS Solutions Library Unified Configuration\n# Generated on " ++ now ++
  "\n\n# Authentication (AWS Solutions Library)\nexport COGNITO_USER_POOL_ID=\"" ++ userPoolId ++
  "\"\nexport COGNITO_USERNAME=\"" ++ username ++
  "\"\nexport AWS_REGION=\"" ++ region ++
  "\"\n\n# BCCE Governance\nexport BCCE_ACCESS_TIER=\"" ++ accessTier ++
  "\"\nexport BCCE_DEPARTMENT=\"" ++ department ++
  "\"\nexport BCCE_ANALYTICS_BUCKET=\"" ++ pyShowOpt analyticsBucket ++
  "\"\nexport BCCE_KMS_KEY_ID=\"" ++ pyShowOpt kmsKeyId ++
  "\"\nexport BCCE_BUDGET_LIMIT=\"" ++ toString budgetLimit ++
  "\"\n\n# Integration Configuration\nexport BCCE_INTEGRATION_MODE=\"layered\"\nexport BCCE_AUTH_PROVIDER=\"aws_solutions_library\"\nexport BCCE_GOVERNANCE_PROVIDER=\"bcce\"\n\n# Analytics and Monitoring\nexport BCCE_ANALYTICS_ENABLED=\"true\"\nexport BCCE_INDIVIDUAL_BUDGET=\"" ++
  pyShowOpt individualBudgetName ++ "\"\n"

/-- The getting-started guide of `_generate_unified_config`, rendered
verbatim up to the interpolated values. -/
def unifiedGettingStarted (email department accessTier idpProvider orgName : String)
    (deptBudgetLimit indivBudgetLimit : Nat) : String :=
  "# Welcome to BCCE + AWS Solutions Library!\n\n## 🎯 Your Unified Setup\n\nYou now have access to the **layered integration** combining:\n- **AWS Solutions Library** for secure authentication\n- **BCCE Governance** for enterprise cost management and analytics\n\n### Your Configuration:\n- **Email:** " ++
  email ++ "\n- **Department:** " ++ department ++
  "\n- **Access Tier:** " ++ accessTier ++
  "\n- **Authentication:** Cognito OIDC (AWS Solutions Library)\n- **Governance:** BCCE Enterprise\n\n## 🚀 Quick Start\n\n### 1. Install Claude Code CLI\n```bash\n# Follow AWS Solutions Library installation guide\n# This provides the base Claude Code installation with authentication\n```\n\n### 2. Configure Your Environment\n```bash\n# Source the unified environment variables\nsource bcce-unified-env.sh\n\n# Verify your setup\nclaude config list\n```\n\n### 3. Authenticate (First Time)\n```bash\n# Use your enterprise SSO credentials\nclaude auth\n\n# This will authenticate through your organization\x27s identity provider\n# and automatically configure BCCE governance\n```\n\n### 4. Verify Integration\n```bash\n# Check authentication status\nclaude auth status\n\n# Verify governance configuration\nclaude governance status\n\n# View your budget and usage\nclaude budget status\n```\n\n## 🎛️ Your Access & Capabilities\n\n### Authentication Features (AWS Solutions Library):\n- ✅ Enterprise SSO integration (" ++
  idpProvider ++
  ")\n- ✅ Session-based access (no long-lived keys)\n- ✅ Cross-platform support\n- ✅ Automatic credential refresh\n\n### Governance Features (BCCE):\n- ✅ Department budget: $" ++
  toString deptBudgetLimit ++
  "/month\n- ✅ Individual budget: $" ++
  toString indivBudgetLimit ++
  "/month\n- ✅ Real-time usage analytics\n- ✅ Cost optimization alerts\n- ✅ Compliance audit trails\n\n### Available Models (" ++
  accessTier ++ " tier):\n" ++ getModelListForTier accessTier ++
  "\n\n## 📊 Monitoring & Analytics\n\nYour usage is automatically tracked and optimized:\n- **Cost Tracking:** Real-time budget monitoring\n- **Usage Analytics:** Department and individual metrics\n- **Performance Monitoring:** Response times and success rates\n- **Compliance Logging:** Complete audit trails\n\n## 🆘 Support & Resources\n\n- **Documentation:** AWS Solutions Library + BCCE Integration Guide\n- **Dashboard:** CloudWatch BCCE Unified Analytics\n- **Budget Alerts:** Automatic email notifications\n- **Support:** bcce-support@" ++
  orgName ++
  ".com\n\n## 🔄 What\x27s Different from Standard Claude Code?\n\nThis unified setup provides:\n1. **Enhanced Security:** Enterprise-grade authentication with governance\n2. **Cost Intelligence:** Automatic budget management and optimization\n3. **Analytics:** Department-level usage insights and ROI tracking\n4. **Compliance:** Built-in audit trails and policy enforcement\n\n**Ready to build amazing AI applications with enterprise governance!** 🚀\n"

/-- The result dict of `_generate_unified_config`. -/
structure UnifiedConfigFiles where
  unifiedConfig : UnifiedConfigObj
  envVars : String
  gettingStarted : String
deriving DecidableEq

/-- Python `str.lower()` (applied to the organization name in the support
address of the getting-started guide). -/
def pyLower (s : String) : String :=
  ⟨s.data.map Char.toLower⟩

/-- `_generate_unified_config`: build the unified configuration object and
the env block, then the getting-started guide.  The guide interpolates
`governance_resources['individual_budget']['budget_limit']`, a key that is
absent after a caught budget failure, so that access raises `KeyError`
and the whole config-generation step fails. -/
def generateUnifiedConfig (now : String) (o : UnifiedOnboarder) (email : String)
    (userInfo : CognitoUserInfo) (g : GovResources)
    (accessTier idpProvider : String) : Except PyExc UnifiedConfigFiles :=
  let cfgObj : UnifiedConfigObj :=
    { profile := "unified",
      authentication :=
        { method := "cognito_oidc", provider := idpProvider,
          userPoolId := o.userPoolId, username := userInfo.username,
          sessionBased := true,
          region := o.config.orgRegion.getD "us-east-1" },
      governance :=
        { enabled := true, provider := "bcce", accessTier := accessTier,
          department := userInfo.department, budgetLimit := userInfo.budgetLimit,
          analyticsBucket := g.analyticsBucket, kmsKeyId := g.kmsKeyId,
          individualBudget := g.individualBudget.budgetName },
      integration :=
        { architecture := "layered", solutionsLibrary := "authentication",
          bcce := "governance", version := "1.0.0" } }
  let env := unifiedEnvVars now o.userPoolId userInfo.username
    (o.config.orgRegion.getD "us-east-1") accessTier userInfo.department
    g.analyticsBucket g.kmsKeyId userInfo.budgetLimit
    g.individualBudget.budgetName
  match pyDictGetNat g.individualBudget.budgetLimit "budget_limit" with
  | .error e => .error e
  | .ok indivLimit =>
  Except.ok
    { unifiedConfig := cfgObj, envVars := env,
      gettingStarted := unifiedGettingStarted email userInfo.department
        accessTier idpProvider (pyLower (o.config.orgName.getD "company"))
        userInfo.budgetLimit indivLimit }

/-- `_log_unified_onboarding_event`: store the event record in the
analytics bucket when one is configured (failures only warn). -/
def logUnifiedOnboardingEvent (w : AwsWorld) (o : UnifiedOnboarder)
    (email : String) : PyM Unit :=
  match o.config.analyticsBucket with
  | some b =>
    PyM.tryCatch
      (s3PutObjectApi w b
        ("events/onboarding/" ++ w.today ++ "/" ++ deriveUsername email ++ ".json"))
      (fun _ => pure ())
  | none => pure ()

/-- The onboarding-result dict of `onboard_developer_unified`. -/
structure UnifiedResult where
  status : String
  integrationType : String
  authenticationProvider : String
  governanceProvider : String
  developerEmail : String
  department : String
  accessTier : String
  idpProvider : String
  userInfo : CognitoUserInfo
  groupInfo : GroupInfo
  governanceResources : GovResources
  monitoring : UnifiedMonitoring
  configFiles : UnifiedConfigFiles
  onboardedAt : String
deriving DecidableEq

/-- `onboard_developer_unified`: the eight-step unified pipeline
(`_send_unified_welcome` only logs). -/
def onboardDeveloperUnified (w : AwsWorld) (o : UnifiedOnboarder)
    (email department accessTier managerEmail useCase idpProvider : String) :
    PyM UnifiedResult := do
  validateUnifiedRequest w o email department accessTier
  let userInfo ← createCognitoUserEnhanced w o email department accessTier managerEmail
  let groupInfo ← assignDepartmentGroup w o email department
  let governanceResources ← setupGovernanceResources w o email department accessTier
  let monitoring := setupEnhancedMonitoring email department accessTier
  let configFiles ← PyM.ofExcept
    (generateUnifiedConfig w.now o email userInfo governanceResources
      accessTier idpProvider)
  logUnifiedOnboardingEvent w o email
  pure { status := "success", integrationType := "layered_unified",
         authenticationProvider := "aws_solutions_library",
         governanceProvider := "bcce", developerEmail := email,
         department := department, accessTier := accessTier,
         idpProvider := idpProvider, userInfo := userInfo,
         groupInfo := groupInfo, governanceResources := governanceResources,
         monitoring := monitoring, configFiles := configFiles,
         onboardedAt := w.now }

/-- The `--dry-run` branch of the unified `main`: the onboarder is
constructed first (an uncaught `ValueError` there aborts the process with
a non-zero status), then only the validation runs; exit `0` on success
and `1` on failure. -/
def unifiedMainDryRun (w : AwsWorld) (cfg : UnifiedConfig)
    (email department accessTier : String) : Nat × List Op :=
  match mkUnifiedOnboarder cfg with
  | .error _ => (1, [])
  | .ok o =>
    match pyRun (validateUnifiedRequest w o email department accessTier) with
    | (.ok _, ops) => (0, ops)
    | (.error _, ops) => (1, ops)

/-! ## Spec-side validity predicates (for the refinement claims) -/

/-- Written from the spec's words: a (department, tier) pair is valid when
the department exists in the config and the tier is in that department's
allowed set (the unified script defaults the set to `['sandbox']`). -/
def deptTierAllowed (departments : List (String × DeptConfig))
    (department accessTier : String) : Bool :=
  match lookupStr departments department with
  | some dc => (dc.accessTiers.getD ["sandbox"]).contains accessTier
  | none => false

/-- The condition the single-path validation actually enforces on the
(department, tier) pair: the department exists and the tier is in the
fixed global list. -/
def devPairAccepted (cfg : OrgConfig) (department accessTier : String) : Bool :=
  (cfg.departments.map (·.1)).contains department &&
    ["sandbox", "integration", "production"].contains accessTier

/-! ## Concrete fixtures for the closed theorems -/

/-- An `engineering` department allowing the sandbox and integration
tiers with a 100 USD budget (the spec's example scenario). -/
def deptEng : DeptConfig :=
  { accessTiers := some ["sandbox", "integration"], budgetLimit := some 100 }

/-- A single-path organization config with only `engineering`. -/
def cfgDev : OrgConfig :=
  { departments := [("engineering", deptEng)], domain := some "acme.com" }

/-- A unified config with only `engineering` and a complete
`authentication`/`governance` section. -/
def ucfgGood : UnifiedConfig :=
  { departments := [("engineering", deptEng)], userPoolId := some "pool-1",
    analyticsBucket := some "bcce-analytics", kmsKeyId := some "kms-1",
    orgName := some "Acme", orgRegion := some "us-west-2",
    orgEnvironment := some "production" }

/-- The onboarder `__init__` builds from `ucfgGood`. -/
def oGood : UnifiedOnboarder := { config := ucfgGood, userPoolId := "pool-1" }

/-- A world where nothing exists yet and every service call succeeds. -/
def baseWorld : AwsWorld :=
  { existingUsers := [], existingGroups := [], cognitoUsers := [],
    cognitoGroups := ["engineering"], accountId := "123456789012",
    s3CreateFails := false, budgetCreateFails := false, s3PutObjectFails := false,
    userArn := "arn:aws:iam::123456789012:user/bcce-dev-acme-com",
    accessKeyId := "AKIAEXAMPLE", secretAccessKey := "wJalrEXAMPLEKEY",
    kmsKeyId := "kms-key-1",
    kmsKeyArn := "arn:aws:kms:us-west-2:123456789012:key/kms-key-1",
    now := "2025-01-01T00:00:00", today := "2025/01/01" }

/-- `baseWorld` with the example user already present in both identity
stores. -/
def dupWorld : AwsWorld :=
  { baseWorld with cognitoUsers := ["dev-acme-com"],
                   existingUsers := ["bcce-dev-acme-com"] }

/-- `baseWorld` with bucket creation and budget creation both failing. -/
def failWorld : AwsWorld :=
  { baseWorld with s3CreateFails := true, budgetCreateFails := true }

/-- A single-path config whose `engineering` department allows only the
sandbox tier. -/
def cfgSandboxOnly : OrgConfig :=
  { departments :=
      [("engineering", { accessTiers := some ["sandbox"], budgetLimit := some 100 })],
    domain := some "acme.com" }

/-- A config with no departments at all. -/
def cfgEmpty : OrgConfig := { departments := [], domain := none }

/-- A unified config with no departments. -/
def ucfgEmpty : UnifiedConfig :=
  { departments := [], userPoolId := some "pool-1", analyticsBucket := none,
    kmsKeyId := none, orgName := none, orgRegion := none, orgEnvironment := none }

/-- The onboarder built from `ucfgEmpty`. -/
def oEmpty : UnifiedOnboarder := { config := ucfgEmpty, userPoolId := "pool-1" }

/-- A concrete `_create_iam_user` result, used as config-generation
input. -/
def userInfoFix : UserInfo :=
  { username := "bcce-dev-acme-com",
    userArn := "arn:aws:iam::123456789012:user/bcce-dev-acme-com",
    accessKeyId := "AKIAEXAMPLE", secretAccessKey := "wJalrEXAMPLEKEY",
    policyArn := some "arn:aws:iam::123456789012:policy/BCCE-Sandbox-Developer-Policy",
    groupName := "BCCE-Engineering-Sandbox" }

/-- A concrete `_provision_developer_resources` result, used as
config-generation input. -/
def resourcesFix : Resources :=
  { s3Bucket := some "bcce-dev-acme-com-12345678", kmsKeyId := "kms-key-1",
    kmsKeyArn := "arn:aws:kms:us-west-2:123456789012:key/kms-key-1",
    logGroupName := "/bcce/developer/dev-acme-com" }

/-! ## Run lemmas for the embedding monad -/

/-- Unfolding lemma for `>>=` on `PyM`. -/
@[simp] theorem PyM.run_bind {α β : Type} (x : PyM α) (f : α → PyM β) (ops : List Op) :
    (x >>= f) ops =
      match x ops with
      | (.ok a, l) => f a l
      | (.error e, l) => (.error e, l) := rfl

/-- Unfolding lemma for `pure` on `PyM`. -/
@[simp] theorem PyM.run_pure {α : Type} (a : α) (ops : List Op) :
    (pure a : PyM α) ops = (.ok a, ops) := rfl

/-- Unfolding lemma for `PyM.throw`. -/
@[simp] theorem PyM.run_throw {α : Type} (e : PyExc) (ops : List Op) :
    (PyM.throw e : PyM α) ops = (.error e, ops) := rfl

/-- Unfolding lemma for `PyM.tryCatch`. -/
@[simp] theorem PyM.run_tryCatch {α : Type} (x : PyM α) (h : PyExc → PyM α)
    (ops : List Op) :
    PyM.tryCatch x h ops =
      match x ops with
      | (.ok a, l) => (.ok a, l)
      | (.error e, l) => h e l := rfl

/-- Unfolding lemma for `PyM.ofExcept`. -/
@[simp] theorem PyM.run_ofExcept {α : Type} (x : Except PyExc α) (ops : List Op) :
    (PyM.ofExcept x) ops = (x, ops) := rfl

/-- An exception in the first component of a `>>=` short-circuits,
keeping the log. -/
theorem PyM.bind_error {α β : Type} {x : PyM α} {f : α → PyM β} {ops l : List Op}
    {e : PyExc} (h : x ops = (.error e, l)) : (x >>= f) ops = (.error e, l) := by
  simp [h]

/-! ## Characterization lemmas for the pipeline stages -/

/-- What `_validate_onboarding_request` does, as one case split: reject an
unknown department, then a tier outside the fixed global list, then a
taken username; otherwise succeed having issued only the `get_user`
read. -/
theorem validateOnboardingRequest_eq (w : AwsWorld) (cfg : OrgConfig)
    (email department accessTier : String) (ops : List Op) :
    validateOnboardingRequest w cfg email department accessTier ops =
      if (cfg.departments.map (·.1)).contains department = false then
        (.error (.valueError ("Invalid department: " ++ department)), ops)
      else if (["sandbox", "integration", "production"].contains accessTier) = false then
        (.error (.valueError ("Invalid access tier: " ++ accessTier)), ops)
      else if w.existingUsers.contains (iamUsername email) = true then
        (.error (.valueError ("User already exists for " ++ email)),
         ops ++ [.iamGetUser (iamUsername email)])
      else
        (.ok (), ops ++ [.iamGetUser (iamUsername email)]) := by
  unfold validateOnboardingRequest
  cases hd : (cfg.departments.map (·.1)).contains department <;>
    cases ht : (["sandbox", "integration", "production"].contains accessTier) <;>
      cases hu : w.existingUsers.contains (iamUsername email) <;>
        simp at hd ht hu <;>
          simp [hd, ht, hu, iamGetUserApi, ite_apply]

/-- What `_validate_unified_request` does, as one case split: reject an
unknown department, then a tier outside the department's allowed set;
the duplicate-user check never fails (its `ValueError` is swallowed by
the `except Exception` clause), so otherwise the validation succeeds
having issued only the `admin_get_user` read. -/
theorem validateUnifiedRequest_eq (w : AwsWorld) (o : UnifiedOnboarder)
    (email department accessTier : String) (ops : List Op) :
    validateUnifiedRequest w o email department accessTier ops =
      match lookupStr o.config.departments department with
      | none => (.error (.valueError ("Invalid department: " ++ department)), ops)
      | some dc =>
        if ((dc.accessTiers.getD ["sandbox"]).contains accessTier) = false then
          (.error (.valueError ("Invalid access tier " ++ accessTier ++
            " for department " ++ department)), ops)
        else
          (.ok (), ops ++ [.cognitoAdminGetUser (deriveUsername email)]) := by
  unfold validateUnifiedRequest
  cases hl : lookupStr o.config.departments department with
  | none => simp [hl]
  | some dc =>
    cases ht : (dc.accessTiers.getD ["sandbox"]).contains accessTier <;>
      cases hu : w.cognitoUsers.contains (deriveUsername email) <;>
        simp at ht hu <;>
          simp [hl, ht, hu, cognitoAdminGetUserApi, ite_apply]

/-- What `_create_iam_user` does: fail when the username is taken (the
validation has normally excluded this); otherwise create the user, keys
and policy attachment, and run the add-to-group dance, whose trace
depends on whether the `BCCE-{Dept}-{Tier}` group already exists. -/
theorem createIamUser_eq (w : AwsWorld) (email department accessTier : String)
    (ops : List Op) :
    createIamUser w email department accessTier ops =
      if w.existingUsers.contains (iamUsername email) = true then
        (.error .usernameExists, ops ++ [.iamCreateUser (iamUsername email)])
      else
        (.ok { username := iamUsername email, userArn := w.userArn,
               accessKeyId := w.accessKeyId, secretAccessKey := w.secretAccessKey,
               policyArn := getPolicyArnForTier w.accountId accessTier,
               groupName := "BCCE-" ++ pyTitle department ++ "-" ++ pyTitle accessTier },
         ops ++ [.iamCreateUser (iamUsername email),
                 .iamCreateAccessKey (iamUsername email),
                 .iamAttachUserPolicy (iamUsername email)
                   (getPolicyArnForTier w.accountId accessTier)] ++
           (if w.existingGroups.contains
                ("BCCE-" ++ pyTitle department ++ "-" ++ pyTitle accessTier) = true then
              [.iamAddUserToGroup ("BCCE-" ++ pyTitle department ++ "-" ++ pyTitle accessTier)
                 (iamUsername email)]
            else
              [.iamAddUserToGroup ("BCCE-" ++ pyTitle department ++ "-" ++ pyTitle accessTier)
                 (iamUsername email),
               .iamCreateGroup ("BCCE-" ++ pyTitle department ++ "-" ++ pyTitle accessTier),
               .iamAttachGroupPolicy ("BCCE-" ++ pyTitle department ++ "-" ++ pyTitle accessTier)
                 (getPolicyArnForTier w.accountId accessTier),
               .iamAddUserToGroup ("BCCE-" ++ pyTitle department ++ "-" ++ pyTitle accessTier)
                 (iamUsername email)])) := by
  unfold createIamUser createDeveloperGroup
  cases hu : w.existingUsers.contains (iamUsername email) <;>
    cases hg : w.existingGroups.contains
        ("BCCE-" ++ pyTitle department ++ "-" ++ pyTitle accessTier) <;>
      simp at hu hg <;>
        simp [hu, hg, iamCreateUserApi, iamCreateAccessKeyApi, iamAttachUserPolicyApi,
          iamAddUserToGroupApi, iamAddUserToGroupAfterCreateApi, iamCreateGroupApi,
          iamAttachGroupPolicyApi, ite_apply]

/-- What `_provision_developer_resources` does: never raises; the bucket
reference is `None` exactly when bucket creation failed, and the KMS key
is created either way. -/
theorem provisionDeveloperResources_eq (w : AwsWorld)
    (email department accessTier : String) (ops : List Op) :
    provisionDeveloperResources w email department accessTier ops =
      (.ok { s3Bucket :=
               if w.s3CreateFails then none
               else some ("bcce-" ++ deriveUsername email ++ "-" ++ pyTake w.accountId 8),
             kmsKeyId := w.kmsKeyId, kmsKeyArn := w.kmsKeyArn,
             logGroupName := "/bcce/developer/" ++ deriveUsername email },
       ops ++
         (if w.s3CreateFails then
            [.s3CreateBucket ("bcce-" ++ deriveUsername email ++ "-" ++ pyTake w.accountId 8),
             .kmsCreateKey]
          else
            [.s3CreateBucket ("bcce-" ++ deriveUsername email ++ "-" ++ pyTake w.accountId 8),
             .s3PutBucketVersioning ("bcce-" ++ deriveUsername email ++ "-" ++ pyTake w.accountId 8),
             .s3PutBucketPolicy ("bcce-" ++ deriveUsername email ++ "-" ++ pyTake w.accountId 8),
             .kmsCreateKey])) := by
  unfold provisionDeveloperResources
  cases hf : w.s3CreateFails <;>
    simp [hf, s3CreateBucketApi, s3PutBucketVersioningApi, s3PutBucketPolicyApi,
      kmsCreateKeyApi, ite_apply]

/-- What `_setup_budget_controls` does: never raises; one
`create_budget` call carrying the two fixed notifications is always
issued, and the result degrades to a `None` budget name exactly when that
call failed. -/
theorem setupBudgetControls_eq (w : AwsWorld) (cfg : OrgConfig)
    (email department accessTier : String) (ops : List Op) :
    setupBudgetControls w cfg email department accessTier ops =
      (.ok (if w.budgetCreateFails then
              { budgetName := none, budgetLimit := none, currency := none,
                notificationsEnabled := none, error := some "create_budget failed" }
            else
              { budgetName := some ("BCCE-" ++ deriveUsername email),
                budgetLimit := some (budgetLimitFor accessTier),
                currency := some "USD", notificationsEnabled := some true,
                error := none }),
       ops ++ [.budgetsCreateBudget ("BCCE-" ++ deriveUsername email)
                 (budgetLimitFor accessTier)
                 (devBudgetNotifications cfg email department)]) := by
  unfold setupBudgetControls
  cases hf : w.budgetCreateFails <;>
    simp [hf, budgetsCreateBudgetApi, ite_apply]

/-- What `_setup_individual_budget` does: the unified analogue of
`setupBudgetControls_eq`. -/
theorem setupIndividualBudget_eq (w : AwsWorld)
    (email department accessTier : String) (ops : List Op) :
    setupIndividualBudget w email department accessTier ops =
      (.ok (if w.budgetCreateFails then
              { budgetName := none, budgetLimit := none, currency := none,
                created := false, error := some "create_budget failed" }
            else
              { budgetName := some ("BCCE-Individual-" ++ deriveUsername email),
                budgetLimit := some (tierLimitFor accessTier),
                currency := some "USD", created := true, error := none }),
       ops ++ [.budgetsCreateBudget ("BCCE-Individual-" ++ deriveUsername email)
                 (tierLimitFor accessTier)
                 (unifiedBudgetNotifications email)]) := by
  unfold setupIndividualBudget
  cases hf : w.budgetCreateFails <;>
    simp [hf, budgetsCreateBudgetApi, ite_apply]

/-- What `_create_cognito_user_enhanced` does: fail (re-raising) when the
Cognito username is taken, otherwise return the user record. -/
theorem createCognitoUserEnhanced_eq (w : AwsWorld) (o : UnifiedOnboarder)
    (email department accessTier managerEmail : String) (ops : List Op) :
    createCognitoUserEnhanced w o email department accessTier managerEmail ops =
      if w.cognitoUsers.contains (deriveUsername email) = true then
        (.error .usernameExists, ops ++ [.cognitoAdminCreateUser (deriveUsername email)])
      else
        (.ok { username := deriveUsername email, userPoolId := o.userPoolId,
               userSub := deriveUsername email, email := email,
               department := department, accessTier := accessTier,
               budgetLimit := ((lookupStr o.config.departments department).getD
                 { accessTiers := none, budgetLimit := none }).budgetLimit.getD 100,
               managerEmail := managerEmail, authMethod := "cognito_enhanced" },
         ops ++ [.cognitoAdminCreateUser (deriveUsername email)]) := by
  unfold createCognitoUserEnhanced
  cases hu : w.cognitoUsers.contains (deriveUsername email) <;>
    simp at hu <;>
      simp [hu, cognitoAdminCreateUserApi, ite_apply]

/-- What `_assign_department_group` does: fail (re-raising
`ResourceNotFoundException`) when the department group is missing,
otherwise return the group record. -/
theorem assignDepartmentGroup_eq (w : AwsWorld) (o : UnifiedOnboarder)
    (email department : String) (ops : List Op) :
    assignDepartmentGroup w o email department ops =
      if w.cognitoGroups.contains department = true then
        (.ok { groupName := department, groupAssigned := true,
               department := department },
         ops ++ [.cognitoAdminAddUserToGroup department (deriveUsername email)])
      else
        (.error .resourceNotFound,
         ops ++ [.cognitoAdminAddUserToGroup department (deriveUsername email)]) := by
  unfold assignDepartmentGroup
  cases hg : w.cognitoGroups.contains department <;>
    simp at hg <;>
      simp [hg, cognitoAdminAddUserToGroupApi, ite_apply]

/-- What `_setup_analytics_tracking` does: never raises; returns the
configuration object, issuing a `put_object` exactly when an analytics
bucket is configured (a put failure is caught). -/
theorem setupAnalyticsTracking_eq (w : AwsWorld) (o : UnifiedOnboarder)
    (email department accessTier : String) (ops : List Op) :
    setupAnalyticsTracking w o email department accessTier ops =
      (.ok { userEmail := email, department := department,
             accessTier := accessTier, trackingEnabled := true,
             metricsNamespace := "BCCE/" ++ o.config.orgName.getD "Organization",
             analyticsBucket := o.config.analyticsBucket,
             retentionDays := if accessTier = "production" then 365 else 90 },
       ops ++
         (match o.config.analyticsBucket with
          | some b => [.s3PutObject b
              ("configs/users/" ++ deriveUsername email ++ "/analytics-config.json")]
          | none => [])) := by
  unfold setupAnalyticsTracking
  cases hb : o.config.analyticsBucket <;>
    cases hf : w.s3PutObjectFails <;>
      simp [hb, hf, s3PutObjectApi, ite_apply]

/-- What `_setup_governance_resources` does: never raises; the combined
record of the individual budget (degraded on failure), the analytics
configuration and the metrics configuration. -/
theorem setupGovernanceResources_eq (w : AwsWorld) (o : UnifiedOnboarder)
    (email department accessTier : String) (ops : List Op) :
    setupGovernanceResources w o email department accessTier ops =
      (.ok { s3UserPath := "users/" ++ deriveUsername email,
             analyticsBucket := o.config.analyticsBucket,
             individualBudget :=
               (if w.budgetCreateFails then
                  { budgetName := none, budgetLimit := none, currency := none,
                    created := false, error := some "create_budget failed" }
                else
                  { budgetName := some ("BCCE-Individual-" ++ deriveUsername email),
                    budgetLimit := some (tierLimitFor accessTier),
                    currency := some "USD", created := true, error := none }),
             analyticsConfig :=
               { userEmail := email, department := department,
                 accessTier := accessTier, trackingEnabled := true,
                 metricsNamespace := "BCCE/" ++ o.config.orgName.getD "Organization",
                 analyticsBucket := o.config.analyticsBucket,
                 retentionDays := if accessTier = "production" then 365 else 90 },
             metricsConfig := setupCustomMetrics o email department,
             kmsKeyId := o.config.kmsKeyId },
       ops ++ [.budgetsCreateBudget ("BCCE-Individual-" ++ deriveUsername email)
                 (tierLimitFor accessTier) (unifiedBudgetNotifications email)] ++
         (match o.config.analyticsBucket with
          | some b => [.s3PutObject b
              ("configs/users/" ++ deriveUsername email ++ "/analytics-config.json")]
          | none => [])) := by
  unfold setupGovernanceResources
  simp [setupIndividualBudget_eq, setupAnalyticsTracking_eq]

/-- What `_generate_config_files` does: raise `IndexError` when the email
has no `'@'`, otherwise return the three artifacts. -/
theorem generateConfigFiles_eq (now email : String) (userInfo : UserInfo)
    (resources : Resources) (accessTier : String) :
    generateConfigFiles now email userInfo resources accessTier =
      match (pySplitChar email '@').get? 1 with
      | none => .error .indexError
      | some domainPart =>
        match (pySplitChar domainPart '.').get? 0 with
        | none => .error .indexError
        | some dept =>
          .ok { bcceConfig :=
                  { profile := "default",
                    aws := { region := "us-east-1",
                             accessKeyId := userInfo.accessKeyId,
                             secretAccessKey := userInfo.secretAccessKey },
                    bcce := { accessTier := accessTier, department := dept,
                              developerEmail := email,
                              s3Bucket := resources.s3Bucket,
                              kmsKeyId := resources.kmsKeyId,
                              monitoring := { enabled := true, logLevel := "INFO" } } },
                envVars := devEnvVars now userInfo.accessKeyId
                  userInfo.secretAccessKey accessTier email resources.s3Bucket
                  resources.kmsKeyId,
                gettingStarted := devGettingStarted accessTier resources.s3Bucket
                  resources.kmsKeyId } := by
  unfold generateConfigFiles emailDomainDept pyIndex
  cases h1 : (pySplitChar email '@').get? 1 with
  | none => simp [h1]
  | some domainPart =>
    cases h2 : (pySplitChar domainPart '.')[0]? <;>
      simp [h1, h2]

/-- What `_generate_unified_config` does: raise `KeyError('budget_limit')`
when the individual-budget dict lacks that key (i.e. after a caught
budget-creation failure), otherwise return the three artifacts. -/
theorem generateUnifiedConfig_eq (now : String) (o : UnifiedOnboarder)
    (email : String) (userInfo : CognitoUserInfo) (g : GovResources)
    (accessTier idpProvider : String) :
    generateUnifiedConfig now o email userInfo g accessTier idpProvider =
      match g.individualBudget.budgetLimit with
      | none => .error (.keyError "budget_limit")
      | some indivLimit =>
        .ok { unifiedConfig :=
                { profile := "unified",
                  authentication :=
                    { method := "cognito_oidc", provider := idpProvider,
                      userPoolId := o.userPoolId, username := userInfo.username,
                      sessionBased := true,
                      region := o.config.orgRegion.getD "us-east-1" },
                  governance :=
                    { enabled := true, provider := "bcce",
                      accessTier := accessTier,
                      department := userInfo.department,
                      budgetLimit := userInfo.budgetLimit,
                      analyticsBucket := g.analyticsBucket,
                      kmsKeyId := g.kmsKeyId,
                      individualBudget := g.individualBudget.budgetName },
                  integration :=
                    { architecture := "layered",
                      solutionsLibrary := "authentication",
                      bcce := "governance", version := "1.0.0" } },
              envVars := unifiedEnvVars now o.userPoolId userInfo.username
                (o.config.orgRegion.getD "us-east-1") accessTier
                userInfo.department g.analyticsBucket g.kmsKeyId
                userInfo.budgetLimit g.individualBudget.budgetName,
              gettingStarted := unifiedGettingStarted email userInfo.department
                accessTier idpProvider (pyLower (o.config.orgName.getD "company"))
                userInfo.budgetLimit indivLimit } := by
  unfold generateUnifiedConfig pyDictGetNat
  cases h : g.individualBudget.budgetLimit <;>
    simp [h]

/-- What `_log_unified_onboarding_event` does: never raises; issues a
`put_object` exactly when an analytics bucket is configured. -/
theorem logUnifiedOnboardingEvent_eq (w : AwsWorld) (o : UnifiedOnboarder)
    (email : String) (ops : List Op) :
    logUnifiedOnboardingEvent w o email ops =
      (.ok (),
       ops ++
         (match o.config.analyticsBucket with
          | some b => [.s3PutObject b
              ("events/onboarding/" ++ w.today ++ "/" ++ deriveUsername email ++ ".json")]
          | none => [])) := by
  unfold logUnifiedOnboardingEvent
  cases hb : o.config.analyticsBucket <;>
    cases hf : w.s3PutObjectFails <;>
      simp [hb, hf, s3PutObjectApi, ite_apply]

/-- `pySplitCharAux` never returns the empty list. -/
theorem pySplitCharAux_ne_nil (sep : Char) :
    ∀ (l acc : List Char), pySplitCharAux sep l acc ≠ [] := by
  intro l
  induction l with
  | nil => intro acc; simp [pySplitCharAux]
  | cons c cs ih =>
    intro acc
    unfold pySplitCharAux
    by_cases h : c = sep
    · simp [h]
    · simp [h, ih]

/-- Python `s.split(sep)[0]` never raises: the split list is nonempty. -/
theorem pySplitChar_get0 (s : String) (sep : Char) :
    ∃ x, (pySplitChar s sep).get? 0 = some x := by
  unfold pySplitChar
  cases h : pySplitCharAux sep s.data [] with
  | nil => exact absurd h (pySplitCharAux_ne_nil sep s.data [])
  | cons x xs => exact ⟨x, rfl⟩


/-! ## Claim theorems -/

/-- C8 (amended): username derivation is the pure function replacing every
`'@'` and `'.'` of the email with `'-'`, identically across stages; the
unified script uses it as-is, so `dev@acme.com` yields `dev-acme-com`,
while the single-path script prepends `bcce-`, yielding
`bcce-dev-acme-com`. -/
theorem c8_username_derivation :
    (∀ email : String, iamUsername email = "bcce-" ++ deriveUsername email)
    ∧ (∀ email : String,
        deriveUsername email =
          ⟨email.data.map (fun c => if c = '@' ∨ c = '.' then '-' else c)⟩)
    ∧ deriveUsername "dev@acme.com" = "dev-acme-com"
    ∧ iamUsername "dev@acme.com" = "bcce-dev-acme-com" := by
  refine ⟨fun email => rfl, fun email => ?_, by decide, by decide⟩
  unfold deriveUsername replaceChar
  congr 1
  show (email.data.map _).map _ = _
  rw [List.map_map]
  have hfun :
      ((fun c => if c = '.' then '-' else c) ∘ fun c => if c = '@' then '-' else c) =
        fun c : Char => if c = '@' ∨ c = '.' then '-' else c := by
    funext c
    by_cases h1 : c = '@'
    · simp [h1]
    · by_cases h2 : c = '.' <;> simp [h1, h2]
  rw [hfun]

/-- C8 (counterexample): the single-path script derives
`bcce-dev-acme-com` from `dev@acme.com`, not the claimed
`dev-acme-com`. -/
theorem c8_counterexample :
    iamUsername "dev@acme.com" = "bcce-dev-acme-com"
    ∧ iamUsername "dev@acme.com" ≠ "dev-acme-com" := by
  exact ⟨by decide, by decide⟩

/-- C5: for every tier and department, both budget stages issue exactly
one `create_budget` call whose notification list has exactly two rules,
with thresholds exactly 80 and 100 percent of actual spend. -/
theorem c5_budget_thresholds (w : AwsWorld) (cfg : OrgConfig)
    (email department accessTier : String) :
    (pyRun (setupBudgetControls w cfg email department accessTier)).2 =
        [.budgetsCreateBudget ("BCCE-" ++ deriveUsername email)
          (budgetLimitFor accessTier) (devBudgetNotifications cfg email department)]
    ∧ (devBudgetNotifications cfg email department).map (·.threshold) = [80, 100]
    ∧ (devBudgetNotifications cfg email department).length = 2
    ∧ (pyRun (setupIndividualBudget w email department accessTier)).2 =
        [.budgetsCreateBudget ("BCCE-Individual-" ++ deriveUsername email)
          (tierLimitFor accessTier) (unifiedBudgetNotifications email)]
    ∧ (unifiedBudgetNotifications email).map (·.threshold) = [80, 100]
    ∧ (unifiedBudgetNotifications email).length = 2 := by
  refine ⟨?_, rfl, rfl, ?_, rfl, rfl⟩
  · simp [pyRun, setupBudgetControls_eq]
  · simp [pyRun, setupIndividualBudget_eq]

/-- C6 (counterexample): in the unified script the 100%-threshold
notification (index 1) has exactly one subscriber, the user's own email —
no department-manager address. -/
theorem c6_counterexample :
    ((unifiedBudgetNotifications "dev@acme.com").get? 1).map
        (fun n => n.subscribers.map (·.address)) = some ["dev@acme.com"]
    ∧ ((unifiedBudgetNotifications "dev@acme.com").get? 1).map
        (fun n => n.subscribers.length) = some 1 := by
  exact ⟨rfl, rfl⟩

/-- C6 (amended): in the single-path script the 80% rule subscribes the
user only and the 100% rule the user plus
`{department}-manager@{config domain, default company.com}` (two
subscribers); in the unified script both rules subscribe the user only. -/
theorem c6_subscriber_lists (cfg : OrgConfig) (email department : String) :
    (devBudgetNotifications cfg email department).map (·.subscribers) =
      [[{ subscriptionType := "EMAIL", address := email }],
       [{ subscriptionType := "EMAIL", address := email },
        { subscriptionType := "EMAIL",
          address := department ++ "-manager@" ++ cfg.domain.getD "company.com" }]]
    ∧ (unifiedBudgetNotifications email).map (·.subscribers) =
      [[{ subscriptionType := "EMAIL", address := email }],
       [{ subscriptionType := "EMAIL", address := email }]] :=
  ⟨rfl, rfl⟩

/-- C10: for an access tier outside the fixed table, both budget stages
fall back to a monthly limit of 100 USD and return normally (never
raise), issuing their `create_budget` call with limit 100. -/
theorem c10_default_budget_limit (w : AwsWorld) (cfg : OrgConfig)
    (email department accessTier : String)
    (h : accessTier ∉ (["sandbox", "integration", "production"] : List String)) :
    budgetLimitFor accessTier = 100
    ∧ tierLimitFor accessTier = 100
    ∧ isOkE (pyRun (setupBudgetControls w cfg email department accessTier)).1 = true
    ∧ isOkE (pyRun (setupIndividualBudget w email department accessTier)).1 = true
    ∧ (pyRun (setupBudgetControls w cfg email department accessTier)).2 =
        [.budgetsCreateBudget ("BCCE-" ++ deriveUsername email) 100
          (devBudgetNotifications cfg email department)]
    ∧ (pyRun (setupIndividualBudget w email department accessTier)).2 =
        [.budgetsCreateBudget ("BCCE-Individual-" ++ deriveUsername email) 100
          (unifiedBudgetNotifications email)] := by
  simp only [List.mem_cons, List.not_mem_nil, or_false, not_or] at h
  obtain ⟨h1, h2, h3⟩ := h
  have e1 : ("sandbox" == accessTier) = false :=
    beq_eq_false_iff_ne.mpr (Ne.symm h1)
  have e2 : ("integration" == accessTier) = false :=
    beq_eq_false_iff_ne.mpr (Ne.symm h2)
  have e3 : ("production" == accessTier) = false :=
    beq_eq_false_iff_ne.mpr (Ne.symm h3)
  have hb : budgetLimitFor accessTier = 100 := by
    simp [budgetLimitFor, budgetLimits, lookupStr, List.find?, e1, e2, e3]
  have ht : tierLimitFor accessTier = 100 := by
    simp [tierLimitFor, tierLimits, lookupStr, List.find?, e1, e2, e3]
  refine ⟨hb, ht, ?_, ?_, ?_, ?_⟩ <;>
    cases hf : w.budgetCreateFails <;>
      simp [pyRun, setupBudgetControls_eq, setupIndividualBudget_eq, hf, isOkE, hb, ht]

/-- C10 (witness): the fall-back at the concrete unmapped tier
`power-user`. -/
theorem c10_default_budget_limit_witness :
    ("power-user" ∉ (["sandbox", "integration", "production"] : List String))
    ∧ (budgetLimitFor "power-user" = 100
       ∧ tierLimitFor "power-user" = 100
       ∧ isOkE (pyRun (setupBudgetControls baseWorld cfgDev "dev@acme.com"
           "engineering" "power-user")).1 = true
       ∧ isOkE (pyRun (setupIndividualBudget baseWorld "dev@acme.com"
           "engineering" "power-user")).1 = true
       ∧ (pyRun (setupBudgetControls baseWorld cfgDev "dev@acme.com"
           "engineering" "power-user")).2 =
           [.budgetsCreateBudget ("BCCE-" ++ deriveUsername "dev@acme.com") 100
             (devBudgetNotifications cfgDev "dev@acme.com" "engineering")]
       ∧ (pyRun (setupIndividualBudget baseWorld "dev@acme.com"
           "engineering" "power-user")).2 =
           [.budgetsCreateBudget ("BCCE-Individual-" ++ deriveUsername "dev@acme.com") 100
             (unifiedBudgetNotifications "dev@acme.com")]) :=
  ⟨by decide,
   c10_default_budget_limit baseWorld cfgDev "dev@acme.com" "engineering"
     "power-user" (by decide)⟩

/-- C7 (counterexample): for the unmapped tier `power-user`,
`_get_policy_arn_for_tier` returns `None` and `_create_iam_user` returns
normally after attaching the `None` policy ARN — no `PolicyNotFoundError`
(no such error exists in the script). -/
theorem c7_counterexample :
    getPolicyArnForTier "123456789012" "power-user" = none
    ∧ isOkE (pyRun (createIamUser baseWorld "dev@acme.com" "engineering"
        "power-user")).1 = true
    ∧ (pyRun (createIamUser baseWorld "dev@acme.com" "engineering"
        "power-user")).2.contains (.iamAttachUserPolicy "bcce-dev-acme-com" none) = true := by
  exact ⟨by decide, by decide, by decide⟩

/-- C7 (amended): the identity stage never fails with a policy-lookup
error — its only failure is an already-taken username; the tier-to-policy
lookup returns `None` for unmapped tiers, and every tier the validation
accepts has a mapping. -/
theorem c7_no_policy_error (w : AwsWorld) (email department accessTier : String) :
    (isOkE (pyRun (createIamUser w email department accessTier)).1 = true
      ∨ (pyRun (createIamUser w email department accessTier)).1 = .error .usernameExists)
    ∧ ∀ accountId tier,
        tier ∈ (["sandbox", "integration", "production"] : List String) →
          (getPolicyArnForTier accountId tier).isSome = true := by
  constructor
  · by_cases hu : iamUsername email ∈ w.existingUsers
    · right
      simp [pyRun, createIamUser_eq, hu]
    · left
      simp [pyRun, createIamUser_eq, hu, isOkE]
  · intro accountId tier htier
    simp only [List.mem_cons, List.not_mem_nil, or_false] at htier
    rcases htier with rfl | rfl | rfl <;> rfl

/-- C7 (witness): the amended statement at a concrete fresh user and the
mapped tier `sandbox`. -/
theorem c7_no_policy_error_witness :
    (isOkE (pyRun (createIamUser baseWorld "dev@acme.com" "engineering"
        "sandbox")).1 = true
      ∨ (pyRun (createIamUser baseWorld "dev@acme.com" "engineering"
          "sandbox")).1 = .error .usernameExists)
    ∧ ("sandbox" ∈ (["sandbox", "integration", "production"] : List String)
       ∧ (getPolicyArnForTier "123456789012" "sandbox").isSome = true) :=
  ⟨(c7_no_policy_error baseWorld "dev@acme.com" "engineering" "sandbox").1,
   by decide,
   (c7_no_policy_error baseWorld "dev@acme.com" "engineering" "sandbox").2
     "123456789012" "sandbox" (by decide)⟩

/-- C3 (counterexample): two config-generation runs with identical email,
user info, resources and tier but different clock readings render
different environment-variable blocks (the block embeds the generation
timestamp). -/
theorem c3_counterexample :
    (okOf (generateConfigFiles "2025-01-01T00:00:00" "dev@acme.com" userInfoFix
        resourcesFix "sandbox")).map (·.envVars) ≠
      (okOf (generateConfigFiles "2025-01-02T00:00:00" "dev@acme.com" userInfoFix
        resourcesFix "sandbox")).map (·.envVars) := by
  decide

/-- C3 (amended): the configuration objects of both scripts are pure
functions of the listed inputs — independent of the clock reading; only
the env blocks (and the unified getting-started text through no field)
embed the timestamp. -/
theorem c3_config_object_time_independent (now now' email : String)
    (u : UserInfo) (r : Resources) (accessTier : String)
    (o : UnifiedOnboarder) (email2 : String) (uu : CognitoUserInfo)
    (g : GovResources) (accessTier2 idpProvider : String) :
    (generateConfigFiles now email u r accessTier).map (·.bcceConfig) =
      (generateConfigFiles now' email u r accessTier).map (·.bcceConfig)
    ∧ (generateUnifiedConfig now o email2 uu g accessTier2 idpProvider).map
        (·.unifiedConfig) =
      (generateUnifiedConfig now' o email2 uu g accessTier2 idpProvider).map
        (·.unifiedConfig) := by
  constructor
  · simp only [generateConfigFiles_eq]
    cases h1 : (pySplitChar email '@').get? 1 with
    | none => rfl
    | some d =>
      obtain ⟨x, hx⟩ := pySplitChar_get0 d '.'
      rw [List.get?_eq_getElem?] at hx
      simp [hx, Except.map]
  · simp only [generateUnifiedConfig_eq]
    cases hb : g.individualBudget.budgetLimit <;> simp [hb, Except.map]

/-- C1 (code evaluation at the failing input): with username
`dev-acme-com` already in the Cognito pool, the unified validation
returns normally — the duplicate-user `ValueError` it raises is caught by
its own `except Exception` clause and only logged — and the pipeline goes
on to attempt the provisioning call `admin_create_user`, failing there
with a username-exists error instead of the duplicate-user validation
error.  The single-path script, by contrast, fails validation with the
duplicate-user `ValueError` and issues no provisioning call. -/
theorem c1_duplicate_check_swallowed :
    isOkE (pyRun (validateUnifiedRequest dupWorld oGood "dev@acme.com"
        "engineering" "sandbox")).1 = true
    ∧ errOf (pyRun (onboardDeveloperUnified dupWorld oGood "dev@acme.com"
        "engineering" "sandbox" "mgr@acme.com" "code-assist" "cognito")).1 =
        some .usernameExists
    ∧ (pyRun (onboardDeveloperUnified dupWorld oGood "dev@acme.com"
        "engineering" "sandbox" "mgr@acme.com" "code-assist" "cognito")).2.contains
        (.cognitoAdminCreateUser "dev-acme-com") = true
    ∧ errOf (pyRun (validateOnboardingRequest dupWorld cfgDev "dev@acme.com"
        "engineering" "sandbox")).1 =
        some (.valueError "User already exists for dev@acme.com")
    ∧ (pyRun (validateOnboardingRequest dupWorld cfgDev "dev@acme.com"
        "engineering" "sandbox")).2.filter Op.isProvisioning = [] := by
  exact ⟨by decide, by decide, by decide, by decide, by decide⟩

/-- C2 (counterexample): with `engineering` allowing only `sandbox`, the
request (`engineering`, `integration`) is outside the department's
allowed set, yet the single-path validation succeeds — it checks the tier
only against the fixed global list. -/
theorem c2_counterexample :
    (lookupStr cfgSandboxOnly.departments "engineering").map (·.accessTiers) =
        some (some ["sandbox"])
    ∧ deptTierAllowed cfgSandboxOnly.departments "engineering" "integration" = false
    ∧ isOkE (pyRun (validateOnboardingRequest baseWorld cfgSandboxOnly
        "dev@acme.com" "engineering" "integration")).1 = true := by
  exact ⟨by decide, by decide, by decide⟩

/-- C2 (amended): the unified validation succeeds exactly when the
department exists and the tier is in its allowed set (default
`['sandbox']`); the single-path validation instead accepts exactly the
pairs whose department exists and whose tier is in the fixed global list
(plus a fresh username).  In both scripts, when the department/tier check
fails, onboarding fails with a validation error before any provisioning
call is attempted. -/
theorem c2_validation_gate (w : AwsWorld) (o : UnifiedOnboarder) (cfg : OrgConfig)
    (email department accessTier managerEmail useCase idpProvider : String) :
    (isOkE (pyRun (validateUnifiedRequest w o email department accessTier)).1 =
        deptTierAllowed o.config.departments department accessTier)
    ∧ (isOkE (pyRun (validateOnboardingRequest w cfg email department accessTier)).1 =
        (devPairAccepted cfg department accessTier &&
          !(w.existingUsers.contains (iamUsername email))))
    ∧ (deptTierAllowed o.config.departments department accessTier = false →
        isOkE (pyRun (onboardDeveloperUnified w o email department accessTier
            managerEmail useCase idpProvider)).1 = false
        ∧ (pyRun (onboardDeveloperUnified w o email department accessTier
            managerEmail useCase idpProvider)).2.filter Op.isProvisioning = [])
    ∧ (devPairAccepted cfg department accessTier = false →
        isOkE (pyRun (onboardDeveloper w cfg email department accessTier
            managerEmail useCase)).1 = false
        ∧ (pyRun (onboardDeveloper w cfg email department accessTier
            managerEmail useCase)).2.filter Op.isProvisioning = []) := by
  refine ⟨?_, ?_, ?_, ?_⟩
  · unfold pyRun deptTierAllowed
    rw [validateUnifiedRequest_eq]
    cases hl : lookupStr o.config.departments department with
    | none => rfl
    | some dc =>
      cases ht : (dc.accessTiers.getD ["sandbox"]).contains accessTier <;>
        simp at ht <;> simp [ht, isOkE]
  · unfold pyRun devPairAccepted
    rw [validateOnboardingRequest_eq]
    cases hd : (cfg.departments.map (·.1)).contains department <;>
      cases ht : (["sandbox", "integration", "production"].contains accessTier) <;>
        cases hu : w.existingUsers.contains (iamUsername email) <;>
          simp at hd ht hu <;> simp [hd, ht, hu, isOkE]
  · intro h
    have hv : ∃ msg, validateUnifiedRequest w o email department accessTier [] =
        (.error (.valueError msg), []) := by
      rw [validateUnifiedRequest_eq]
      unfold deptTierAllowed at h
      cases hl : lookupStr o.config.departments department with
      | none => exact ⟨"Invalid department: " ++ department, rfl⟩
      | some dc =>
        rw [hl] at h
        simp at h
        refine ⟨"Invalid access tier " ++ accessTier ++ " for department " ++
          department, ?_⟩
        simp [h]
    obtain ⟨msg, hv⟩ := hv
    have hp : pyRun (onboardDeveloperUnified w o email department accessTier
        managerEmail useCase idpProvider) = (.error (.valueError msg), []) := by
      unfold onboardDeveloperUnified pyRun
      simp only [PyM.run_bind, hv]
    rw [hp]
    exact ⟨rfl, rfl⟩
  · intro h
    have hv : ∃ msg, validateOnboardingRequest w cfg email department accessTier [] =
        (.error (.valueError msg), []) := by
      rw [validateOnboardingRequest_eq]
      by_cases hd : department ∈ cfg.departments.map (·.1)
      · have ht : accessTier ∉ (["sandbox", "integration", "production"] : List String) := by
          by_contra hmem
          rw [devPairAccepted] at h
          simp [hd, hmem] at h
        exact ⟨"Invalid access tier: " ++ accessTier, by simp [hd, ht]⟩
      · exact ⟨"Invalid department: " ++ department, by simp [hd]⟩
    obtain ⟨msg, hv⟩ := hv
    have hp : pyRun (onboardDeveloper w cfg email department accessTier
        managerEmail useCase) = (.error (.valueError msg), []) := by
      unfold onboardDeveloper pyRun
      simp only [PyM.run_bind, hv]
    rw [hp]
    exact ⟨rfl, rfl⟩

/-- C2 (witness): the amended statement at a department absent from the
config, where both pipelines fail with no provisioning call. -/
theorem c2_validation_gate_witness :
    (isOkE (pyRun (validateUnifiedRequest baseWorld oEmpty "dev@acme.com"
        "ghost" "sandbox")).1 =
        deptTierAllowed oEmpty.config.departments "ghost" "sandbox")
    ∧ (isOkE (pyRun (validateOnboardingRequest baseWorld cfgEmpty "dev@acme.com"
        "ghost" "sandbox")).1 =
        (devPairAccepted cfgEmpty "ghost" "sandbox" &&
          !(baseWorld.existingUsers.contains (iamUsername "dev@acme.com"))))
    ∧ (isOkE (pyRun (onboardDeveloperUnified baseWorld oEmpty "dev@acme.com"
        "ghost" "sandbox" "mgr@acme.com" "code-assist" "cognito")).1 = false
       ∧ (pyRun (onboardDeveloperUnified baseWorld oEmpty "dev@acme.com"
          "ghost" "sandbox" "mgr@acme.com" "code-assist" "cognito")).2.filter
          Op.isProvisioning = [])
    ∧ (isOkE (pyRun (onboardDeveloper baseWorld cfgEmpty "dev@acme.com"
        "ghost" "sandbox" "mgr@acme.com" "code-assist")).1 = false
       ∧ (pyRun (onboardDeveloper baseWorld cfgEmpty "dev@acme.com"
          "ghost" "sandbox" "mgr@acme.com" "code-assist")).2.filter
          Op.isProvisioning = []) := by
  have h := c2_validation_gate baseWorld oEmpty cfgEmpty "dev@acme.com" "ghost"
    "sandbox" "mgr@acme.com" "code-assist" "cognito"
  exact ⟨h.1, h.2.1, h.2.2.1 (by decide), h.2.2.2 (by decide)⟩

/-- C4: provided the request passes validation (known department, tier in
the fixed global list, fresh username) and the email contains an `'@'`,
the single-path pipeline returns normally whatever the bucket and budget
calls do: the bucket reference is `None` exactly on bucket-creation
failure, the budget name is `None` exactly on budget-creation failure,
and the later stages (KMS key, budget call, monitoring, config
generation) still execute. -/
theorem c4_degraded_fields (w : AwsWorld) (cfg : OrgConfig)
    (email department accessTier managerEmail useCase : String)
    (h1 : devPairAccepted cfg department accessTier = true)
    (h2 : w.existingUsers.contains (iamUsername email) = false)
    (h3 : ((pySplitChar email '@').get? 1).isSome = true) :
    isOkE (pyRun (onboardDeveloper w cfg email department accessTier
        managerEmail useCase)).1 = true
    ∧ (okOf (pyRun (onboardDeveloper w cfg email department accessTier
        managerEmail useCase)).1).map (·.resources.s3Bucket) =
        some (if w.s3CreateFails then none
              else some ("bcce-" ++ deriveUsername email ++ "-" ++ pyTake w.accountId 8))
    ∧ (okOf (pyRun (onboardDeveloper w cfg email department accessTier
        managerEmail useCase)).1).map (·.budgetInfo.budgetName) =
        some (if w.budgetCreateFails then none
              else some ("BCCE-" ++ deriveUsername email))
    ∧ (okOf (pyRun (onboardDeveloper w cfg email department accessTier
        managerEmail useCase)).1).map (·.monitoring) =
        some (setupMonitoring email department)
    ∧ (pyRun (onboardDeveloper w cfg email department accessTier
        managerEmail useCase)).2.any Op.isKmsCreate = true
    ∧ (pyRun (onboardDeveloper w cfg email department accessTier
        managerEmail useCase)).2.any Op.isBudgetCreate = true := by
  simp only [devPairAccepted, Bool.and_eq_true] at h1
  obtain ⟨hd, ht⟩ := h1
  obtain ⟨domainPart, hdp⟩ := Option.isSome_iff_exists.mp h3
  obtain ⟨d0, hd0⟩ := pySplitChar_get0 domainPart '.'
  rw [List.get?_eq_getElem?] at hdp hd0
  unfold onboardDeveloper pyRun
  cases hg : w.existingGroups.contains
      ("BCCE-" ++ pyTitle department ++ "-" ++ pyTitle accessTier) <;>
    cases hs : w.s3CreateFails <;>
      cases hb : w.budgetCreateFails <;>
        simp at hd ht h2 hg <;>
          simp [validateOnboardingRequest_eq, createIamUser_eq,
            provisionDeveloperResources_eq, setupBudgetControls_eq,
            generateConfigFiles_eq, hd, ht, h2, hg, hs, hb, hdp, hd0,
            isOkE, okOf, Op.isKmsCreate, Op.isBudgetCreate]

/-- C4 (witness): the degraded run at a world where both the bucket and
the budget call fail. -/
theorem c4_degraded_fields_witness :
    devPairAccepted cfgDev "engineering" "sandbox" = true
    ∧ failWorld.existingUsers.contains (iamUsername "dev@acme.com") = false
    ∧ ((pySplitChar "dev@acme.com" '@').get? 1).isSome = true
    ∧ (isOkE (pyRun (onboardDeveloper failWorld cfgDev "dev@acme.com"
          "engineering" "sandbox" "mgr@acme.com" "code-assist")).1 = true
       ∧ (okOf (pyRun (onboardDeveloper failWorld cfgDev "dev@acme.com"
          "engineering" "sandbox" "mgr@acme.com" "code-assist")).1).map
            (·.resources.s3Bucket) =
          some (if failWorld.s3CreateFails then none
                else some ("bcce-" ++ deriveUsername "dev@acme.com" ++ "-" ++
                  pyTake failWorld.accountId 8))
       ∧ (okOf (pyRun (onboardDeveloper failWorld cfgDev "dev@acme.com"
          "engineering" "sandbox" "mgr@acme.com" "code-assist")).1).map
            (·.budgetInfo.budgetName) =
          some (if failWorld.budgetCreateFails then none
                else some ("BCCE-" ++ deriveUsername "dev@acme.com"))
       ∧ (okOf (pyRun (onboardDeveloper failWorld cfgDev "dev@acme.com"
          "engineering" "sandbox" "mgr@acme.com" "code-assist")).1).map
            (·.monitoring) = some (setupMonitoring "dev@acme.com" "engineering")
       ∧ (pyRun (onboardDeveloper failWorld cfgDev "dev@acme.com"
          "engineering" "sandbox" "mgr@acme.com" "code-assist")).2.any
            Op.isKmsCreate = true
       ∧ (pyRun (onboardDeveloper failWorld cfgDev "dev@acme.com"
          "engineering" "sandbox" "mgr@acme.com" "code-assist")).2.any
            Op.isBudgetCreate = true) :=
  ⟨by decide, by decide, by decide,
   c4_degraded_fields failWorld cfgDev "dev@acme.com" "engineering" "sandbox"
     "mgr@acme.com" "code-assist" (by decide) (by decide) (by decide)⟩

/-- C9: dry-run mode runs only the validation stage: its operation trace
contains no provisioning operation, and the exit code is 0 exactly when
the validation (and, in the unified script, the onboarder construction)
succeeds, 1 otherwise. -/
theorem c9_dry_run (w : AwsWorld) (cfg : OrgConfig) (ucfg : UnifiedConfig)
    (email department accessTier : String) :
    (mainDryRun w cfg email department accessTier).2.filter Op.isProvisioning = []
    ∧ (mainDryRun w cfg email department accessTier).1 =
        (if isOkE (pyRun (validateOnboardingRequest w cfg email department
            accessTier)).1 then 0 else 1)
    ∧ (unifiedMainDryRun w ucfg email department accessTier).2.filter
        Op.isProvisioning = []
    ∧ (unifiedMainDryRun w ucfg email department accessTier).1 =
        (match mkUnifiedOnboarder ucfg with
         | .error _ => 1
         | .ok o =>
           if isOkE (pyRun (validateUnifiedRequest w o email department
               accessTier)).1 then 0 else 1) := by
  refine ⟨?_, ?_, ?_, ?_⟩
  · unfold mainDryRun pyRun
    rw [validateOnboardingRequest_eq]
    cases hd : (cfg.departments.map (·.1)).contains department <;>
      cases ht : (["sandbox", "integration", "production"].contains accessTier) <;>
        cases hu : w.existingUsers.contains (iamUsername email) <;>
          simp at hd ht hu <;>
            simp [hd, ht, hu, Op.isProvisioning]
  · unfold mainDryRun pyRun
    rw [validateOnboardingRequest_eq]
    cases hd : (cfg.departments.map (·.1)).contains department <;>
      cases ht : (["sandbox", "integration", "production"].contains accessTier) <;>
        cases hu : w.existingUsers.contains (iamUsername email) <;>
          simp at hd ht hu <;>
            simp [hd, ht, hu, isOkE]
  · unfold unifiedMainDryRun pyRun
    cases hm : mkUnifiedOnboarder ucfg with
    | error e => simp
    | ok o =>
      simp only [validateUnifiedRequest_eq]
      cases hl : lookupStr o.config.departments department with
      | none => simp [hl, Op.isProvisioning]
      | some dc =>
        cases ht : (dc.accessTiers.getD ["sandbox"]).contains accessTier <;>
          simp at ht <;> simp [hl, ht, Op.isProvisioning]
  · unfold unifiedMainDryRun pyRun
    cases hm : mkUnifiedOnboarder ucfg with
    | error e => simp
    | ok o =>
      simp only [validateUnifiedRequest_eq]
      cases hl : lookupStr o.config.departments department with
      | none => simp [hl, isOkE]
      | some dc =>
        cases ht : (dc.accessTiers.getD ["sandbox"]).contains accessTier <;>
          simp at ht <;> simp [hl, ht, isOkE]
